import Mathlib

/-!
Verification of the nhl-scraper repository: a shallow embedding in Lean 4 of
the scraper and persistence code under `src/`, together with theorems settling
the specification claims.

Conventions of the embedding:
* Python strings are Lean `String` / `List Char`; `str.strip`, `str.upper`,
  `str.lower`, single-character `str.replace(x, "")` and the substring test
  `x in s` are modelled by explicit functions below.
* A Python value that may be absent from a dict (`d.get(k)`) is an `Option`;
  `none` models the key being absent, matching `dict.get(k, default)`.
* Python `float(text)` on a finite decimal literal (optional sign, digits,
  optional fractional part, optional exponent) is modelled exactly as a
  `mantissa × 10 ^ exp10` pair (`PyNum`); binary floating-point rounding is
  abstracted to exact arithmetic, and the special forms `inf`/`nan` and
  underscore-grouped digits are outside the modelled grammar.  `int(x)`
  truncates toward zero (`Int.tdiv`).
* `datetime.utcnow()` / `datetime.now()` are modelled by explicit numeric
  clock arguments.
-/

/-- Python truthiness of an optional string: `None` and `""` are falsy. -/
def pyTruthyStr : Option String → Bool
  | none => false
  | some s => !(s == "")

/-- Python truthiness of an optional integer: `None` and `0` are falsy. -/
def pyTruthyInt : Option Int → Bool
  | none => false
  | some n => !(n == 0)

/-- Python `str.lower()` (ASCII). -/
def pyLower (cs : List Char) : List Char := cs.map Char.toLower

/-- Python `str.upper()` (ASCII). -/
def pyUpper (cs : List Char) : List Char := cs.map Char.toUpper

/-- Python `str.strip()`: drop whitespace from both ends. -/
def pyStrip (cs : List Char) : List Char :=
  ((cs.dropWhile Char.isWhitespace).reverse.dropWhile Char.isWhitespace).reverse

/-- Python `str.replace(x, "")` for a single-character pattern `x`. -/
def removeAll (x : Char) (cs : List Char) : List Char :=
  cs.filter (fun c => c != x)

/-- Python `x in s` for a single character `x`. -/
def pyContainsChar (cs : List Char) (x : Char) : Bool := cs.contains x

/-- Python substring test `sub in s`. -/
def pySubstr (sub : List Char) : List Char → Bool
  | [] => sub.isEmpty
  | c :: cs => sub.isPrefixOf (c :: cs) || pySubstr sub cs

/-- Numeric value of a list of decimal digit characters (most significant first). -/
def digitsVal (ds : List Char) : Nat :=
  ds.foldl (fun a c => 10 * a + (c.toNat - 48)) 0

/-- The parsed value of a Python float literal, kept exactly: the represented
number is `mantissa * 10 ^ exp10`. -/
structure PyNum where
  mantissa : Int
  exp10 : Int
deriving DecidableEq

/-- Leading-sign parsing for a Python float literal. -/
def parseSign : List Char → Int × List Char
  | '+' :: r => (1, r)
  | '-' :: r => (-1, r)
  | r => (1, r)

/-- Parse `digits`, `digits.digits?` or `.digits`: returns the mantissa, the
decimal exponent contributed by the fractional part, and the rest. -/
def parseDecimal (cs : List Char) : Option (Nat × Int × List Char) :=
  let ip := cs.takeWhile Char.isDigit
  let r1 := cs.dropWhile Char.isDigit
  match r1 with
  | '.' :: r2 =>
    let fp := r2.takeWhile Char.isDigit
    let r3 := r2.dropWhile Char.isDigit
    if ip.isEmpty && fp.isEmpty then none
    else some (digitsVal (ip ++ fp), -(fp.length : Int), r3)
  | _ => if ip.isEmpty then none else some (digitsVal ip, 0, r1)

/-- Parse a nonempty run of digits, returning its value and the rest. -/
def parseDigitRun (cs : List Char) : Option (Nat × List Char) :=
  let ds := cs.takeWhile Char.isDigit
  if ds.isEmpty then none else some (digitsVal ds, cs.dropWhile Char.isDigit)

/-- Python `float(text)` on the finite decimal-literal grammar: surrounding
whitespace is stripped, then an optional sign, a decimal mantissa and an
optional `e`/`E` exponent; anything else fails (`ValueError`). -/
def pyFloatChars (cs0 : List Char) : Option PyNum :=
  let cs1 := pyStrip cs0
  let sgn := (parseSign cs1).1
  let cs2 := (parseSign cs1).2
  match parseDecimal cs2 with
  | none => none
  | some (m, e, rest) =>
    match rest with
    | [] => some ⟨sgn * (m : Int), e⟩
    | 'e' :: r | 'E' :: r =>
      let esgn := (parseSign r).1
      let r2 := (parseSign r).2
      match parseDigitRun r2 with
      | some (ev, []) => some ⟨sgn * (m : Int), e + esgn * (ev : Int)⟩
      | _ => none
    | _ => none

/-- Python `float(s)` on a string. -/
def pyFloat? (s : String) : Option PyNum := pyFloatChars s.toList

/-- Python `int(x)` on the exact value of a parsed float: truncation toward
zero. -/
def pyIntOfNum (p : PyNum) : Int :=
  if 0 ≤ p.exp10 then p.mantissa * (10 : Int) ^ p.exp10.toNat
  else Int.tdiv p.mantissa ((10 : Int) ^ (-p.exp10).toNat)

/-- The `safe_int` helper defined inside `MoneyPuckScraper._parse_skater_row`
and `_parse_goalie_row`: `int(float(val)) if val else default`, with a parse
failure (`ValueError`) caught and mapped to the default. -/
def safe_int (val : Option String) (d : Int) : Int :=
  match val with
  | none => d
  | some s =>
    if s == "" then d
    else
      match pyFloat? s with
      | some p => pyIntOfNum p
      | none => d

/-- The `safe_float` helper defined inside `MoneyPuckScraper._parse_skater_row`
and `_parse_goalie_row`: `float(val) if val else default`, with a parse
failure caught and mapped to the default. -/
def safe_float (val : Option String) (d : Option PyNum) : Option PyNum :=
  match val with
  | none => d
  | some s =>
    if s == "" then d
    else
      match pyFloat? s with
      | some p => some p
      | none => d

namespace PuckPediaScraper

/-- `PuckPediaScraper._parse_salary` from `src/src/scrapers/puckpedia.py`:
strips the text, removes `$` and `,`, then handles an `M` suffix
(millions), a `K` suffix (thousands), or a plain number; unparseable text
maps to 0. -/
def parse_salary (s : String) : Int :=
  if s == "" then 0
  else
    let t := removeAll ',' (removeAll '$' (pyStrip s.toList))
    if pyContainsChar (pyUpper t) 'M' then
      match pyFloatChars (removeAll 'M' (pyUpper t)) with
      | some p => pyIntOfNum ⟨p.mantissa * 1000000, p.exp10⟩
      | none => 0
    else if pyContainsChar (pyUpper t) 'K' then
      match pyFloatChars (removeAll 'K' (pyUpper t)) with
      | some p => pyIntOfNum ⟨p.mantissa * 1000, p.exp10⟩
      | none => 0
    else
      match pyFloatChars t with
      | some p => pyIntOfNum p
      | none => 0

end PuckPediaScraper

/-- The static team list `NHL_TEAMS` from `src/src/scrapers/nhl_roster.py`,
whose comment reads "All 32 NHL team abbreviations". -/
def NHL_TEAMS : List String := [
  "ANA", "ARI", "BOS", "BUF", "CAR", "CBJ", "CGY", "CHI",
  "COL", "DAL", "DET", "EDM", "FLA", "LAK", "MIN", "MTL",
  "NJD", "NSH", "NYI", "NYR", "OTT", "PHI", "PIT", "SEA",
  "SJS", "STL", "TBL", "TOR", "UTA", "VAN", "VGK", "WPG", "WSH"]

namespace NHLRosterScraper

/-- `NHLRosterScraper.get_current_season`: `datetime.now()` is modelled by the
current `year` and `month`; season start month is October. -/
def get_current_season (year month : Nat) : String :=
  let y := if 10 ≤ month then year else year - 1
  toString y ++ toString (y + 1)

/-- `NHLRosterScraper.scrape_all_rosters`: iterates `NHL_TEAMS`, issuing one
`scrape_roster` request per listed team code; a per-team failure is logged
and skipped.  The network is modelled by `fetch`, giving each team's roster
response or an error. -/
def scrape_all_rosters {α : Type} (fetch : String → Except String α) : List α :=
  NHL_TEAMS.filterMap (fun team => (fetch team).toOption)

end NHLRosterScraper

namespace MoneyPuckScraper

/-- `MoneyPuckScraper.get_current_season`: single-year form of the same
October-rollover rule. -/
def get_current_season (year month : Nat) : String :=
  toString (if 10 ≤ month then year else year - 1)

/-- A row produced by `csv.DictReader`: header-keyed string cells. -/
def CsvRow : Type := List (String × String)

/-- Python `row.get(k)` on a CSV row. -/
def rowGet (row : CsvRow) (k : String) : Option String :=
  (List.find? (fun p => p.1 == k) row).map (fun p => p.2)

/-- The normalized skater record built by `MoneyPuckScraper._parse_skater_row`
(one field per key of the returned dict literal). -/
structure MPSkater where
  player_id : Int
  player_name : String
  team_abbrev : String
  position : String
  season : String
  situation : String
  games_played : Int
  toi_seconds : Int
  corsi_for : Int
  corsi_against : Int
  corsi_pct : Option PyNum
  corsi_rel : Option PyNum
  fenwick_for : Int
  fenwick_against : Int
  fenwick_pct : Option PyNum
  xg_for : Option PyNum
  xg_against : Option PyNum
  xg_pct : Option PyNum
  individual_xg : Option PyNum
  goals_above_expected : Option PyNum
  scoring_chances_for : Int
  scoring_chances_against : Int
  high_danger_chances_for : Int
  high_danger_chances_against : Int
  high_danger_goals_for : Int
  high_danger_goals_against : Int
  offensive_zone_starts : Int
  defensive_zone_starts : Int
  neutral_zone_starts : Int
  offensive_zone_start_pct : Option PyNum
  on_ice_sh_pct : Option PyNum
  on_ice_sv_pct : Option PyNum
  pdo : Option PyNum
  shots : Int
  goals : Int
  primary_assists : Int
  secondary_assists : Int
  individual_corsi_for : Int
  source : String
deriving DecidableEq

/-- `MoneyPuckScraper._parse_skater_row`.  The `season` argument is the
numeric start year (the Python code holds it as a digit string and applies
`int`). -/
def parse_skater_row (row : CsvRow) (season : Nat) : MPSkater where
  player_id := safe_int (rowGet row "playerId") 0
  player_name := (rowGet row "name").getD ""
  team_abbrev := (rowGet row "team").getD ""
  position := (rowGet row "position").getD ""
  season := toString season ++ toString (season + 1)
  situation := (rowGet row "situation").getD "all"
  games_played := safe_int (rowGet row "games_played") 0
  toi_seconds := safe_int (rowGet row "icetime") 0
  corsi_for :=
    if pyTruthyStr (rowGet row "onIce_corsiPercentage") then
      safe_int (rowGet row "onIce_corsiPercentage") 0
    else
      safe_int (rowGet row "I_F_shotAttempts") 0 +
        safe_int (rowGet row "OnIce_F_shotAttempts") 0
  corsi_against := safe_int (rowGet row "OnIce_A_shotAttempts") 0
  corsi_pct := safe_float (rowGet row "onIce_corsiPercentage") none
  corsi_rel := safe_float (rowGet row "offIce_corsiPercentage") none
  fenwick_for := safe_int (rowGet row "OnIce_F_unblockedShotAttempts") 0
  fenwick_against := safe_int (rowGet row "OnIce_A_unblockedShotAttempts") 0
  fenwick_pct := safe_float (rowGet row "onIce_fenwickPercentage") none
  xg_for := safe_float (rowGet row "OnIce_F_xGoals") (some ⟨0, 0⟩)
  xg_against := safe_float (rowGet row "OnIce_A_xGoals") (some ⟨0, 0⟩)
  xg_pct := safe_float (rowGet row "onIce_xGoalsPercentage") none
  individual_xg := safe_float (rowGet row "I_F_xGoals") (some ⟨0, 0⟩)
  goals_above_expected :=
    safe_float (rowGet row "I_F_xGoals_with_rebounds_normalized_per_game") none
  scoring_chances_for := safe_int (rowGet row "OnIce_F_scoringChances") 0
  scoring_chances_against := safe_int (rowGet row "OnIce_A_scoringChances") 0
  high_danger_chances_for := safe_int (rowGet row "OnIce_F_highDangerShotAttempts") 0
  high_danger_chances_against := safe_int (rowGet row "OnIce_A_highDangerShotAttempts") 0
  high_danger_goals_for := safe_int (rowGet row "OnIce_F_highDangerGoals") 0
  high_danger_goals_against := safe_int (rowGet row "OnIce_A_highDangerGoals") 0
  offensive_zone_starts := safe_int (rowGet row "I_F_oZoneShiftStarts") 0
  defensive_zone_starts := safe_int (rowGet row "I_F_dZoneShiftStarts") 0
  neutral_zone_starts := safe_int (rowGet row "I_F_neutralZoneShiftStarts") 0
  offensive_zone_start_pct := safe_float (rowGet row "offensiveZoneStartPct") none
  on_ice_sh_pct := safe_float (rowGet row "onIce_F_shootingPct") none
  on_ice_sv_pct := safe_float (rowGet row "onIce_A_savePct") none
  pdo := safe_float (rowGet row "PDO") none
  shots := safe_int (rowGet row "I_F_shotsOnGoal") 0
  goals := safe_int (rowGet row "I_F_goals") 0
  primary_assists := safe_int (rowGet row "I_F_primaryAssists") 0
  secondary_assists := safe_int (rowGet row "I_F_secondaryAssists") 0
  individual_corsi_for := safe_int (rowGet row "I_F_shotAttempts") 0
  source := "moneypuck"

/-- The normalized goalie record built by `MoneyPuckScraper._parse_goalie_row`. -/
structure MPGoalie where
  player_id : Int
  player_name : String
  team_abbrev : String
  season : String
  situation : String
  games_played : Int
  toi_seconds : Int
  shots_against : Int
  goals_against : Int
  saves : Int
  save_pct : Option PyNum
  xg_against : Option PyNum
  goals_saved_above_expected : Option PyNum
  low_danger_shots : Int
  low_danger_goals : Int
  low_danger_save_pct : Option PyNum
  medium_danger_shots : Int
  medium_danger_goals : Int
  medium_danger_save_pct : Option PyNum
  high_danger_shots : Int
  high_danger_goals : Int
  high_danger_save_pct : Option PyNum
  rebounds_given : Int
  rebound_goals_against : Int
  freeze_pct : Option PyNum
  source : String
deriving DecidableEq

/-- `MoneyPuckScraper._parse_goalie_row`, including the derived
`saves = shots_against - goals_against`. -/
def parse_goalie_row (row : CsvRow) (season : Nat) : MPGoalie :=
  let shots_against := safe_int (rowGet row "shotsOnGoal") 0
  let goals_against := safe_int (rowGet row "goals") 0
  { player_id := safe_int (rowGet row "playerId") 0
    player_name := (rowGet row "name").getD ""
    team_abbrev := (rowGet row "team").getD ""
    season := toString season ++ toString (season + 1)
    situation := (rowGet row "situation").getD "all"
    games_played := safe_int (rowGet row "games_played") 0
    toi_seconds := safe_int (rowGet row "icetime") 0
    shots_against := shots_against
    goals_against := goals_against
    saves := shots_against - goals_against
    save_pct := safe_float (rowGet row "onGoalSavePercentage") none
    xg_against := safe_float (rowGet row "xGoals") (some ⟨0, 0⟩)
    goals_saved_above_expected := safe_float (rowGet row "goalsAboveExpected") none
    low_danger_shots := safe_int (rowGet row "lowDangerShotsOnGoal") 0
    low_danger_goals := safe_int (rowGet row "lowDangerGoals") 0
    low_danger_save_pct := safe_float (rowGet row "lowDangerSavePercentage") none
    medium_danger_shots := safe_int (rowGet row "mediumDangerShotsOnGoal") 0
    medium_danger_goals := safe_int (rowGet row "mediumDangerGoals") 0
    medium_danger_save_pct := safe_float (rowGet row "mediumDangerSavePercentage") none
    high_danger_shots := safe_int (rowGet row "highDangerShotsOnGoal") 0
    high_danger_goals := safe_int (rowGet row "highDangerGoals") 0
    high_danger_save_pct := safe_float (rowGet row "highDangerSavePercentage") none
    rebounds_given := safe_int (rowGet row "reboundsCreated") 0
    rebound_goals_against := safe_int (rowGet row "reboundGoals") 0
    freeze_pct := safe_float (rowGet row "freezePct") none
    source := "moneypuck" }

/-- `MoneyPuckScraper.scrape_skater_stats`: the CSV fetch outcome is modelled
by `fetchOutcome` (`_fetch_csv` either raises or returns the parsed rows).
On a fetch failure the method logs and returns the empty list; otherwise it
filters rows to the requested situation tag and maps them through
`parse_skater_row`. -/
def scrape_skater_stats (fetchOutcome : Except String (List CsvRow))
    (season : Nat) (situation : String) : List MPSkater :=
  match fetchOutcome with
  | .error _ => []
  | .ok raw =>
    let rows :=
      if situation != "all" then
        raw.filter (fun r => rowGet r "situation" == some situation)
      else
        raw.filter (fun r => rowGet r "situation" == some "all")
    rows.map (fun r => parse_skater_row r season)

/-- `MoneyPuckScraper.scrape_goalie_stats`: as `scrape_skater_stats`, always
filtered to the "all" situation. -/
def scrape_goalie_stats (fetchOutcome : Except String (List CsvRow))
    (season : Nat) : List MPGoalie :=
  match fetchOutcome with
  | .error _ => []
  | .ok raw =>
    let rows := raw.filter (fun r => rowGet r "situation" == some "all")
    rows.map (fun r => parse_goalie_row r season)

end MoneyPuckScraper

namespace PuckPediaScraper

/-- An HTML table cell as seen by `_parse_contract_row`: its stripped text
(`get_text(strip=True)`) and, when the cell embeds an `<a>` element, the
stripped text of that link. -/
structure Cell where
  text : String
  linkText : Option String
deriving DecidableEq

/-- The contract dict built by `PuckPediaScraper._parse_contract_row`. -/
structure PPContract where
  player_name : String
  team_abbrev : String
  current_cap_hit : Int
  current_salary : Int
  aav : Int
  total_years : Nat
  expiry_status : Option String
  has_nmc : Bool
  has_ntc : Bool
  source : String
  scraped_at : String
deriving DecidableEq

/-- Python `str.upper()` on a `String`. -/
def strUpper (s : String) : String := (pyUpper s.toList).asString

/-- The cell loop of `_parse_contract_row` over `cell_texts[1:]`: the first
dollar-bearing cell fills `cap_hit`, the second fills `salary`, and a cell
exactly matching `UFA`/`RFA`/`10.2(C)` (upper-cased) sets the expiry
status. -/
def contractScan : List String → Int × Int × Option String → Int × Int × Option String
  | [], acc => acc
  | t :: rest, (cap, sal, status) =>
    if pyContainsChar t.toList '$' then
      let v := parse_salary t
      if cap == 0 then contractScan rest (v, sal, status)
      else if sal == 0 then contractScan rest (cap, v, status)
      else contractScan rest (cap, sal, status)
    else if strUpper t == "UFA" || strUpper t == "RFA" || strUpper t == "10.2(C)" then
      contractScan rest (cap, sal, some (strUpper t))
    else contractScan rest (cap, sal, status)

/-- The search for the case-insensitive pattern `(\d+)\s*(?:yr|year)` used for
the contract length: scan left to right; at the first position where a digit
run, optional whitespace and then `yr` or `year` match, return the digit
run's value.  The input is already lower-cased. -/
def yearsSearch : List Char → Option Nat
  | [] => none
  | c :: cs =>
    if c.isDigit then
      let ds := (c :: cs).takeWhile Char.isDigit
      let r2 := ((c :: cs).dropWhile Char.isDigit).dropWhile Char.isWhitespace
      if "yr".toList.isPrefixOf r2 || "year".toList.isPrefixOf r2 then
        some (digitsVal ds)
      else yearsSearch cs
    else yearsSearch cs

/-- `PuckPediaScraper._parse_contract_row` from `src/src/scrapers/puckpedia.py`.
The caller only passes rows with at least 3 cells, so the empty-row case is
unreachable; `now` models `datetime.now().isoformat()`. -/
def parse_contract_row (cells : List Cell) (team_abbrev : String)
    (now : String) : Option PPContract :=
  match cells with
  | [] => none
  | c0 :: rest =>
    let cell_texts := c0.text :: rest.map (fun c => c.text)
    if (["player", "name", "pos"] : List String).any
        (fun h => pySubstr h.toList (pyLower c0.text.toList)) then
      none
    else
      let player_name := c0.linkText.getD c0.text
      if player_name == "" || player_name.length < 2 then none
      else
        let scanned := contractScan (rest.map (fun c => c.text)) (0, 0, none)
        let cap_hit := scanned.1
        let salary := scanned.2.1
        let expiry_status := scanned.2.2
        let joined := String.intercalate " " cell_texts
        let total_years := (yearsSearch (pyLower joined.toList)).getD 1
        let row_text := strUpper joined
        some {
          player_name := player_name
          team_abbrev := team_abbrev
          current_cap_hit := cap_hit
          current_salary := if salary != 0 then salary else cap_hit
          aav := cap_hit
          total_years := total_years
          expiry_status := expiry_status
          has_nmc := pySubstr "NMC".toList row_text.toList ||
            pySubstr "NO-MOVE".toList row_text.toList
          has_ntc := pySubstr "NTC".toList row_text.toList ||
            pySubstr "NO-TRADE".toList row_text.toList
          source := "puckpedia"
          scraped_at := now }

end PuckPediaScraper

namespace Database

/-- Python `d.get(k, fallback)` when the fallback is the row's current value:
a present key wins, an absent key keeps the old value. -/
def getOr {α : Type} (new old : Option α) : Option α :=
  match new with
  | some v => some v
  | none => old

/-- Update the first element satisfying `p` (the row returned by a
primary-key / `.first()` lookup), leaving the rest unchanged. -/
def updateFirst {α : Type} (p : α → Bool) (f : α → α) : List α → List α
  | [] => []
  | x :: xs => if p x then f x :: xs else x :: updateFirst p f xs

/-- One insert-or-update step: if a row matching the natural key exists,
overwrite it in place, otherwise append a fresh row. -/
def upsertStep {α : Type} (p : α → Bool) (f : α → α) (mk : α) (l : List α) : List α :=
  if l.any p then updateFirst p f l else l ++ [mk]

/-- A normalized team dict as consumed by `Database.upsert_teams`; `none`
models an absent key. -/
structure TeamDict where
  abbreviation : Option String
  name : Option String
  conference : Option String
  division : Option String
deriving DecidableEq

/-- A row of the `teams` table (`TeamRecord` in `src/src/storage/database.py`);
`raw_data` holds the full original record and `updated_at` the write time. -/
structure TeamRecord where
  abbrev_ : String
  name : Option String
  conference : Option String
  division : Option String
  raw_data : TeamDict
  updated_at : Nat
deriving DecidableEq

/-- The update branch of `Database.upsert_teams` (`existing` found): mutable
fields take the record's values where present, `raw_data` and `updated_at`
are refreshed. -/
def teamUpdate (t : TeamDict) (now : Nat) (r : TeamRecord) : TeamRecord :=
  { r with
    name := getOr t.name r.name
    conference := getOr t.conference r.conference
    division := getOr t.division r.division
    raw_data := t
    updated_at := now }

/-- The insert branch of `Database.upsert_teams`: a fresh row with all
available fields (`updated_at` defaults to the write time). -/
def teamInsert (t : TeamDict) (a : String) (now : Nat) : TeamRecord :=
  { abbrev_ := a, name := t.name, conference := t.conference,
    division := t.division, raw_data := t, updated_at := now }

/-- `Database.upsert_teams`: records whose `abbreviation` is falsy are
skipped; otherwise the row with that abbreviation is updated (mutable fields,
`raw_data`, `updated_at`) or a fresh row is inserted.  `now` models
`datetime.utcnow()` for this call; the returned number counts the processed
records. -/
def upsert_teams (now : Nat) (store : List TeamRecord) :
    List TeamDict → List TeamRecord × Nat
  | [] => (store, 0)
  | t :: rest =>
    if pyTruthyStr t.abbreviation then
      let a := t.abbreviation.getD ""
      let store1 := upsertStep (fun r => r.abbrev_ == a)
        (teamUpdate t now) (teamInsert t a now) store
      let rec2 := upsert_teams now store1 rest
      (rec2.1, rec2.2 + 1)
    else upsert_teams now store rest

/-- A normalized player dict as consumed by `Database.upsert_players`. -/
structure PlayerDict where
  id : Option Int
  first_name : Option String
  last_name : Option String
  position : Option String
  team : Option String
  birth_date : Option String
  birth_country : Option String
  draft_year : Option Int
  draft_round : Option Int
  draft_pick : Option Int
deriving DecidableEq

/-- A row of the `players` table (`PlayerRecord`). -/
structure PlayerRecord where
  id : Int
  first_name : Option String
  last_name : Option String
  position : Option String
  team_abbrev : Option String
  birth_date : Option String
  birth_country : Option String
  draft_year : Option Int
  draft_round : Option Int
  draft_pick : Option Int
  raw_data : PlayerDict
  updated_at : Nat
deriving DecidableEq

/-- The update branch of `Database.upsert_players`. -/
def playerUpdate (p : PlayerDict) (now : Nat) (r : PlayerRecord) : PlayerRecord :=
  { r with
    first_name := getOr p.first_name r.first_name
    last_name := getOr p.last_name r.last_name
    position := getOr p.position r.position
    team_abbrev := getOr p.team r.team_abbrev
    raw_data := p
    updated_at := now }

/-- The insert branch of `Database.upsert_players`. -/
def playerInsert (p : PlayerDict) (pid : Int) (now : Nat) : PlayerRecord :=
  { id := pid, first_name := p.first_name, last_name := p.last_name,
    position := p.position, team_abbrev := p.team,
    birth_date := p.birth_date, birth_country := p.birth_country,
    draft_year := p.draft_year, draft_round := p.draft_round,
    draft_pick := p.draft_pick, raw_data := p, updated_at := now }

/-- `Database.upsert_players`: records with a falsy `id` are skipped; an
existing row with that id gets its name, position, team, `raw_data` and
`updated_at` refreshed, otherwise a full fresh row is inserted. -/
def upsert_players (now : Nat) (store : List PlayerRecord) :
    List PlayerDict → List PlayerRecord × Nat
  | [] => (store, 0)
  | p :: rest =>
    if pyTruthyInt p.id then
      let pid := p.id.getD 0
      let store1 := upsertStep (fun r => r.id == pid)
        (playerUpdate p now) (playerInsert p pid now) store
      let rec2 := upsert_players now store1 rest
      (rec2.1, rec2.2 + 1)
    else upsert_players now store rest

/-- A normalized contract dict as consumed by `Database.upsert_contracts`. -/
structure ContractDict where
  player_name : Option String
  team_abbrev : Option String
  player_id : Option Int
  season : Option String
  contract_type : Option String
  start_season : Option String
  end_season : Option String
  total_years : Option Int
  total_value : Option Int
  aav : Option Int
  current_cap_hit : Option Int
  current_salary : Option Int
  expiry_status : Option String
  has_nmc : Option Bool
  has_ntc : Option Bool
  source : Option String
deriving DecidableEq

/-- A row of the `contracts` table (`ContractRecord`). -/
structure ContractRecord where
  player_id : Option Int
  player_name : String
  team_abbrev : Option String
  season : Option String
  contract_type : Option String
  start_season : Option String
  end_season : Option String
  total_years : Option Int
  total_value : Option Int
  aav : Option Int
  current_cap_hit : Option Int
  current_salary : Option Int
  expiry_status : Option String
  has_nmc : Bool
  has_ntc : Bool
  source : Option String
  raw_data : ContractDict
  updated_at : Nat
deriving DecidableEq

/-- The update branch of `Database.upsert_contracts`. -/
def contractUpdate (c : ContractDict) (now : Nat) (r : ContractRecord) :
    ContractRecord :=
  { r with
    current_cap_hit := getOr c.current_cap_hit r.current_cap_hit
    current_salary := getOr c.current_salary r.current_salary
    aav := getOr c.aav r.aav
    total_years := getOr c.total_years r.total_years
    expiry_status := getOr c.expiry_status r.expiry_status
    has_nmc := c.has_nmc.getD r.has_nmc
    has_ntc := c.has_ntc.getD r.has_ntc
    raw_data := c
    updated_at := now }

/-- The insert branch of `Database.upsert_contracts`. -/
def contractInsert (c : ContractDict) (pn : String) (now : Nat) : ContractRecord :=
  { player_id := c.player_id, player_name := pn,
    team_abbrev := c.team_abbrev, season := c.season,
    contract_type := c.contract_type, start_season := c.start_season,
    end_season := c.end_season, total_years := c.total_years,
    total_value := c.total_value, aav := c.aav,
    current_cap_hit := c.current_cap_hit,
    current_salary := c.current_salary,
    expiry_status := c.expiry_status,
    has_nmc := c.has_nmc.getD false, has_ntc := c.has_ntc.getD false,
    source := c.source, raw_data := c, updated_at := now }

/-- `Database.upsert_contracts`: only a record with a falsy `player_name` is
skipped; the existing row is looked up by `(player_name, team_abbrev)` (a
missing `team_abbrev` matches rows with a null team), its mutable money and
clause fields are overwritten, otherwise a fresh row is inserted. -/
def upsert_contracts (now : Nat) (store : List ContractRecord) :
    List ContractDict → List ContractRecord × Nat
  | [] => (store, 0)
  | c :: rest =>
    if pyTruthyStr c.player_name then
      let pn := c.player_name.getD ""
      let store1 := upsertStep
        (fun r => r.player_name == pn && r.team_abbrev == c.team_abbrev)
        (contractUpdate c now) (contractInsert c pn now) store
      let rec2 := upsert_contracts now store1 rest
      (rec2.1, rec2.2 + 1)
    else upsert_contracts now store rest

/-- A normalized advanced-stats dict as consumed by
`Database.upsert_advanced_stats` (the keys that method reads). -/
structure AdvancedStatsDict where
  player_id : Option Int
  season : Option String
  situation : Option String
  player_name : Option String
  team_abbrev : Option String
  position : Option String
  games_played : Option Int
  toi_seconds : Option Int
  corsi_for : Option Int
  corsi_against : Option Int
  corsi_pct : Option PyNum
  corsi_rel : Option PyNum
  fenwick_for : Option Int
  fenwick_against : Option Int
  fenwick_pct : Option PyNum
  xg_for : Option PyNum
  xg_against : Option PyNum
  xg_pct : Option PyNum
  goals_above_expected : Option PyNum
  offensive_zone_start_pct : Option PyNum
  high_danger_chances_for : Option Int
  high_danger_chances_against : Option Int
  source : Option String
deriving DecidableEq

/-- A row of the `advanced_stats` table (`AdvancedStatsRecord`). -/
structure AdvancedStatsRecord where
  player_id : Int
  player_name : Option String
  team_abbrev : Option String
  season : Option String
  position : Option String
  situation : String
  games_played : Option Int
  toi_seconds : Option Int
  corsi_for : Option Int
  corsi_against : Option Int
  corsi_pct : Option PyNum
  corsi_rel : Option PyNum
  fenwick_for : Option Int
  fenwick_against : Option Int
  fenwick_pct : Option PyNum
  xg_for : Option PyNum
  xg_against : Option PyNum
  xg_pct : Option PyNum
  goals_above_expected : Option PyNum
  oz_start_pct : Option PyNum
  hd_chances_for : Option Int
  hd_chances_against : Option Int
  source : Option String
  raw_data : AdvancedStatsDict
  updated_at : Nat
deriving DecidableEq

/-- The update branch of `Database.upsert_advanced_stats`. -/
def advancedUpdate (s : AdvancedStatsDict) (now : Nat)
    (r : AdvancedStatsRecord) : AdvancedStatsRecord :=
  { r with
    player_name := getOr s.player_name r.player_name
    team_abbrev := getOr s.team_abbrev r.team_abbrev
    position := getOr s.position r.position
    games_played := getOr s.games_played r.games_played
    toi_seconds := getOr s.toi_seconds r.toi_seconds
    corsi_for := getOr s.corsi_for r.corsi_for
    corsi_against := getOr s.corsi_against r.corsi_against
    corsi_pct := getOr s.corsi_pct r.corsi_pct
    corsi_rel := getOr s.corsi_rel r.corsi_rel
    fenwick_for := getOr s.fenwick_for r.fenwick_for
    fenwick_against := getOr s.fenwick_against r.fenwick_against
    fenwick_pct := getOr s.fenwick_pct r.fenwick_pct
    xg_for := getOr s.xg_for r.xg_for
    xg_against := getOr s.xg_against r.xg_against
    xg_pct := getOr s.xg_pct r.xg_pct
    goals_above_expected := getOr s.goals_above_expected r.goals_above_expected
    oz_start_pct := getOr s.offensive_zone_start_pct r.oz_start_pct
    hd_chances_for := getOr s.high_danger_chances_for r.hd_chances_for
    hd_chances_against := getOr s.high_danger_chances_against r.hd_chances_against
    raw_data := s
    updated_at := now }

/-- The insert branch of `Database.upsert_advanced_stats`. -/
def advancedInsert (s : AdvancedStatsDict) (pid : Int) (sit : String)
    (now : Nat) : AdvancedStatsRecord :=
  { player_id := pid, player_name := s.player_name,
    team_abbrev := s.team_abbrev, season := s.season,
    position := s.position, situation := sit,
    games_played := s.games_played, toi_seconds := s.toi_seconds,
    corsi_for := s.corsi_for, corsi_against := s.corsi_against,
    corsi_pct := s.corsi_pct, corsi_rel := s.corsi_rel,
    fenwick_for := s.fenwick_for, fenwick_against := s.fenwick_against,
    fenwick_pct := s.fenwick_pct, xg_for := s.xg_for,
    xg_against := s.xg_against, xg_pct := s.xg_pct,
    goals_above_expected := s.goals_above_expected,
    oz_start_pct := s.offensive_zone_start_pct,
    hd_chances_for := s.high_danger_chances_for,
    hd_chances_against := s.high_danger_chances_against,
    source := s.source, raw_data := s, updated_at := now }

/-- `Database.upsert_advanced_stats`: records with a falsy `player_id` are
skipped; the existing row is looked up by `(player_id, season, situation)`
(situation defaulting to "all") and all stats fields are refreshed, otherwise
a fresh row is inserted. -/
def upsert_advanced_stats (now : Nat) (store : List AdvancedStatsRecord) :
    List AdvancedStatsDict → List AdvancedStatsRecord × Nat
  | [] => (store, 0)
  | s :: rest =>
    if pyTruthyInt s.player_id then
      let pid := s.player_id.getD 0
      let sit := s.situation.getD "all"
      let store1 := upsertStep
        (fun r => r.player_id == pid && r.season == s.season && r.situation == sit)
        (advancedUpdate s now) (advancedInsert s pid sit now) store
      let rec2 := upsert_advanced_stats now store1 rest
      (rec2.1, rec2.2 + 1)
    else upsert_advanced_stats now store rest

/-- Column names of the `players` table, as declared on `PlayerRecord`. -/
def playersColumns : List String :=
  ["id", "first_name", "last_name", "position", "team_abbrev", "birth_date",
   "birth_country", "draft_year", "draft_round", "draft_pick", "raw_data",
   "updated_at"]

/-- Column names of the `player_stats` table, as declared on
`PlayerStatsRecord`. -/
def playerStatsColumns : List String :=
  ["id", "player_id", "season", "team_abbrev", "games_played", "goals",
   "assists", "points", "plus_minus", "pim", "shots", "toi_seconds",
   "source", "raw_data", "updated_at"]

/-- Column names of the `teams` table, as declared on `TeamRecord`. -/
def teamsColumns : List String :=
  ["abbrev", "name", "conference", "division", "raw_data", "updated_at"]

/-- Column names of the `games` table, as declared on `GameRecord`. -/
def gamesColumns : List String :=
  ["id", "season", "game_date", "game_type", "home_team", "away_team",
   "home_score", "away_score", "game_state", "raw_data", "updated_at"]

/-- Column names of the `contracts` table, as declared on `ContractRecord`. -/
def contractsColumns : List String :=
  ["id", "player_id", "player_name", "team_abbrev", "season",
   "contract_type", "start_season", "end_season", "total_years",
   "total_value", "aav", "current_cap_hit", "current_salary",
   "expiry_status", "has_nmc", "has_ntc", "source", "raw_data", "updated_at"]

/-- Column names of the `advanced_stats` table, as declared on
`AdvancedStatsRecord`. -/
def advancedStatsColumns : List String :=
  ["id", "player_id", "player_name", "team_abbrev", "season", "position",
   "situation", "games_played", "toi_seconds", "corsi_for", "corsi_against",
   "corsi_pct", "corsi_rel", "fenwick_for", "fenwick_against", "fenwick_pct",
   "xg_for", "xg_against", "xg_pct", "goals_above_expected", "oz_start_pct",
   "hd_chances_for", "hd_chances_against", "source", "raw_data", "updated_at"]

/-- Column names of the `rosters` table, as declared on `RosterRecord`. -/
def rostersColumns : List String :=
  ["id", "team_abbrev", "player_id", "player_name", "season",
   "jersey_number", "position", "roster_status", "raw_data", "updated_at"]

end Database

/-- Modelled from the spec: the rate-limited HTTP client of section 4.1 lives
in `src/scrapers/base.py` (`BaseScraper.get`), which is not under `src/`.
Per the spec, a `get` call blocks until enough time has elapsed since the
instance's previous request to honor the ceiling of `R` requests per second,
then fires: with no previous request it fires at the arrival time `now`,
otherwise no earlier than `1/R` after the previous firing. -/
def nextRequestTime (R : Rat) (last : Option Rat) (now : Rat) : Rat :=
  match last with
  | none => now
  | some t => max now (t + 1 / R)

/-- Modelled from the spec: the firing times of a sequence of sequential `get`
calls with the given arrival times, threading the limiter state (time of the
previous request) through the calls. -/
def requestTimes (R : Rat) : Option Rat → List Rat → List Rat
  | _, [] => []
  | last, now :: rest =>
    let fire := nextRequestTime R last now
    fire :: requestTimes R (some fire) rest


/-! ## Helper lemmas -/

namespace Database

theorem filter_updateFirst {α : Type} (p : α → Bool) (f : α → α) (l : List α)
    (hf : ∀ a, p a = true → p (f a) = true) :
    ∀ h1 : (l.filter p).length ≤ 1, l.any p = true →
      (updateFirst p f l).filter p =
        match l.filter p with
        | [] => []
        | a :: _ => [f a] := by
  induction l with
  | nil => intro h1 hany; simp at hany
  | cons x xs ih =>
    intro h1 hany
    by_cases hx : p x = true
    · have hxs : xs.filter p = [] := by
        have hlen := h1
        rw [List.filter_cons, if_pos hx, List.length_cons] at hlen
        exact List.length_eq_zero.mp (by omega)
      simp [updateFirst, hx, List.filter_cons, hf x hx, hxs]
    · have hx' : p x = false := by simpa using hx
      have hany' : xs.any p = true := by
        simpa [List.any_cons, hx'] using hany
      have h1' : (xs.filter p).length ≤ 1 := by
        simpa [List.filter_cons, hx'] using h1
      simp only [updateFirst, hx', if_neg, Bool.false_eq_true, not_false_iff,
        ite_false, List.filter_cons, List.filter_cons_of_neg]
      simpa [List.filter_cons, hx'] using ih h1' hany'

theorem upsertStep_filter {α : Type} (p : α → Bool) (f : α → α) (mk : α)
    (l : List α) (hf : ∀ a, p a = true → p (f a) = true) (hmk : p mk = true)
    (h1 : (l.filter p).length ≤ 1) :
    (upsertStep p f mk l).filter p =
      match l.filter p with
      | [] => [mk]
      | a :: _ => [f a] := by
  by_cases hany : l.any p = true
  · have := filter_updateFirst p f l hf h1 hany
    have hne : l.filter p ≠ [] := by
      intro hnil
      rw [List.any_eq_true] at hany
      obtain ⟨a, ha, hpa⟩ := hany
      have : a ∈ l.filter p := List.mem_filter.mpr ⟨ha, hpa⟩
      simp [hnil] at this
    unfold upsertStep
    rw [if_pos hany, this]
    cases h : l.filter p with
    | nil => exact absurd h hne
    | cons a t => rfl
  · have hany' : l.any p = false := by simpa using hany
    have hnil : l.filter p = [] := by
      rw [List.filter_eq_nil_iff]
      intro a ha
      have := List.any_eq_false.mp hany' a ha
      simpa using this
    unfold upsertStep
    rw [if_neg (by simp [hany']), hnil]
    simp [List.filter_append, hnil, List.filter_cons, hmk]

theorem mem_updateFirst {α : Type} (p : α → Bool) (f : α → α) (l : List α) :
    ∀ r ∈ updateFirst p f l, r ∈ l ∨ ∃ a, a ∈ l ∧ r = f a := by
  induction l with
  | nil => intro r hr; simp [updateFirst] at hr
  | cons x xs ih =>
    intro r hr
    unfold updateFirst at hr
    by_cases hx : p x = true
    · rw [if_pos hx] at hr
      rcases List.mem_cons.mp hr with h | h
      · exact Or.inr ⟨x, List.mem_cons_self x xs, h⟩
      · exact Or.inl (List.mem_cons_of_mem x h)
    · rw [if_neg hx] at hr
      rcases List.mem_cons.mp hr with h | h
      · exact Or.inl (h ▸ List.mem_cons_self x xs)
      · rcases ih r h with h' | ⟨a, ha, hfa⟩
        · exact Or.inl (List.mem_cons_of_mem x h')
        · exact Or.inr ⟨a, List.mem_cons_of_mem x ha, hfa⟩

theorem mem_upsertStep {α : Type} (p : α → Bool) (f : α → α) (mk : α)
    (l : List α) : ∀ r ∈ upsertStep p f mk l,
      r ∈ l ∨ (∃ a, a ∈ l ∧ r = f a) ∨ r = mk := by
  intro r hr
  unfold upsertStep at hr
  by_cases hany : l.any p = true
  · rw [if_pos hany] at hr
    rcases mem_updateFirst p f l r hr with h | h
    · exact Or.inl h
    · exact Or.inr (Or.inl h)
  · rw [if_neg hany] at hr
    rcases List.mem_append.mp hr with h | h
    · exact Or.inl h
    · exact Or.inr (Or.inr (by simpa using h))

end Database

/-! ## Claim theorems -/

/-- C5: `scrape_all_rosters` iterates the fixed static list `NHL_TEAMS`,
issuing one roster request per listed team code — but the list contains 33
entries (both "ARI" and "UTA"), not the 32 its own comment and the spec
state. -/
theorem nhl_teams_has_33_entries : NHL_TEAMS.length = 33 := by decide

/-- C8: when the CSV fetch fails entirely, `scrape_skater_stats` and
`scrape_goalie_stats` return the empty list instead of propagating the
error. -/
theorem scrape_stats_empty_on_fetch_failure :
    ∀ (e : String) (season : Nat) (situation : String),
      MoneyPuckScraper.scrape_skater_stats (Except.error e) season situation = [] ∧
      MoneyPuckScraper.scrape_goalie_stats (Except.error e) season = [] := by
  intro e season situation
  exact ⟨rfl, rfl⟩

/-- C7: a present cell value that does not parse as a number never raises:
`safe_int` yields the default 0 and `safe_float` yields `none`. -/
theorem safe_coercions_default_on_unparseable :
    ∀ s : String, pyFloat? s = none →
      safe_int (some s) 0 = 0 ∧ safe_float (some s) none = none := by
  intro s h
  constructor
  · simp only [safe_int]
    rw [h]
    split <;> rfl
  · simp only [safe_float]
    rw [h]
    split <;> rfl

/-- Witness for C7 at the concrete non-numeric cell value "N/A". -/
theorem safe_coercions_default_on_unparseable_witness :
    safe_int (some "N/A") 0 = 0 ∧ safe_float (some "N/A") none = none :=
  safe_coercions_default_on_unparseable "N/A" (by decide)

/-- C10: any table row whose first cell's text contains "player", "name" or
"pos" as a case-insensitive substring is treated as a header row:
`_parse_contract_row` returns `None` and no contract record is produced,
regardless of the remaining cells. -/
theorem header_keyword_rows_skipped :
    ∀ (c0 : PuckPediaScraper.Cell) (rest : List PuckPediaScraper.Cell)
      (team now : String),
      (∃ h ∈ (["player", "name", "pos"] : List String),
        pySubstr h.toList (pyLower c0.text.toList) = true) →
      PuckPediaScraper.parse_contract_row (c0 :: rest) team now = none := by
  intro c0 rest team now hex
  have hAny : (["player", "name", "pos"] : List String).any
      (fun h => pySubstr h.toList (pyLower c0.text.toList)) = true := by
    rw [List.any_eq_true]
    obtain ⟨h, hmem, hsub⟩ := hex
    exact ⟨h, hmem, hsub⟩
  unfold PuckPediaScraper.parse_contract_row
  simp only [hAny, if_true]

/-- Witness for C10: the roster row of the real player Martin Pospisil (his
surname contains "pos") is dropped by the header heuristic. -/
theorem header_keyword_rows_skipped_witness :
    PuckPediaScraper.parse_contract_row
      [⟨"Martin Pospisil", none⟩, ⟨"C", none⟩, ⟨"$1,000,000", none⟩]
      "CGY" "2025-01-01T00:00:00" = none :=
  header_keyword_rows_skipped ⟨"Martin Pospisil", none⟩
    [⟨"C", none⟩, ⟨"$1,000,000", none⟩] "CGY" "2025-01-01T00:00:00"
    ⟨"pos", by decide, by decide⟩


namespace Database

theorem getOr_eq_of_isSome {α : Type} (new old : Option α)
    (h : new.isSome = true) : getOr new old = new := by
  cases new with
  | none => simp at h
  | some v => rfl

theorem some_getD_of_isSome {α : Type} (x : Option α) (d : α)
    (h : x.isSome = true) : some (x.getD d) = x := by
  cases x with
  | none => simp at h
  | some v => rfl

theorem upsert_teams_twice (t1 t2 : Nat) (store : List TeamRecord)
    (rec : TeamDict) (a : String) (hle : t1 ≤ t2)
    (ha : rec.abbreviation = some a) (hane : a ≠ "")
    (hn : rec.name.isSome = true) (hc : rec.conference.isSome = true)
    (hd : rec.division.isSome = true)
    (hst : (store.filter (fun r => r.abbrev_ == a)).length ≤ 1) :
    ∃ r1 : TeamRecord,
      ((upsert_teams t1 store [rec]).1.filter (fun r => r.abbrev_ == a)) = [r1] ∧
      r1.updated_at = t1 ∧ r1.updated_at ≤ t2 ∧
      ((upsert_teams t2 (upsert_teams t1 store [rec]).1 [rec]).1.filter
          (fun r => r.abbrev_ == a)) =
        [{ abbrev_ := a, name := rec.name, conference := rec.conference,
           division := rec.division, raw_data := rec, updated_at := t2 }] := by
  have htra : pyTruthyStr (some a) = true := by
    simp [pyTruthyStr, hane]
  have hs : ∀ (t : Nat) (st : List TeamRecord),
      (upsert_teams t st [rec]).1 = upsertStep (fun r => r.abbrev_ == a)
        (teamUpdate rec t) (teamInsert rec a t) st := by
    intro t st
    simp only [upsert_teams, ha, Option.getD_some, htra, if_true]
  have hf : ∀ (t : Nat) (r : TeamRecord), (r.abbrev_ == a) = true →
      ((teamUpdate rec t r).abbrev_ == a) = true := by
    intro t r h; exact h
  have hmk : ∀ t : Nat, ((teamInsert rec a t).abbrev_ == a) = true := by
    intro t; simp [teamInsert]
  have hfil1 := upsertStep_filter (fun r => r.abbrev_ == a) _ _ store
    (hf t1) (hmk t1) hst
  have step2 : ∀ r1 : TeamRecord,
      (upsert_teams t1 store [rec]).1.filter (fun r => r.abbrev_ == a) = [r1] →
      r1.abbrev_ = a →
      (upsert_teams t2 (upsert_teams t1 store [rec]).1 [rec]).1.filter
          (fun r => r.abbrev_ == a) =
        [{ abbrev_ := a, name := rec.name, conference := rec.conference,
           division := rec.division, raw_data := rec, updated_at := t2 }] := by
    intro r1 hstore1 habb
    have hst1 : ((upsert_teams t1 store [rec]).1.filter
        (fun r => r.abbrev_ == a)).length ≤ 1 := by
      rw [hstore1]; simp
    have hfil2 := upsertStep_filter (fun r => r.abbrev_ == a) _ _
      ((upsert_teams t1 store [rec]).1) (hf t2) (hmk t2) hst1
    rw [hstore1] at hfil2
    dsimp only at hfil2
    rw [hs t2 ((upsert_teams t1 store [rec]).1), hfil2]
    simp [teamUpdate, getOr_eq_of_isSome _ _ hn, getOr_eq_of_isSome _ _ hc,
      getOr_eq_of_isSome _ _ hd, habb]
  cases hsf : store.filter (fun r => r.abbrev_ == a) with
  | nil =>
    rw [hsf] at hfil1
    dsimp only at hfil1
    have hstore1 := hfil1
    rw [← hs t1 store] at hstore1
    exact ⟨_, hstore1, rfl, hle, step2 _ hstore1 rfl⟩
  | cons r0 rest0 =>
    rw [hsf] at hfil1
    dsimp only at hfil1
    have hp0 : (r0.abbrev_ == a) = true := by
      have : r0 ∈ store.filter (fun r => r.abbrev_ == a) := by
        rw [hsf]; exact List.mem_cons_self r0 rest0
      exact (List.mem_filter.mp this).2
    have ha0 : r0.abbrev_ = a := by simpa using hp0
    have hstore1 := hfil1
    rw [← hs t1 store] at hstore1
    exact ⟨_, hstore1, rfl, hle, step2 _ hstore1 ha0⟩

end Database

namespace Database

theorem upsert_contracts_twice (t1 t2 : Nat) (store : List ContractRecord)
    (rec : ContractDict) (pn : String) (hle : t1 ≤ t2)
    (hpn : rec.player_name = some pn) (hpne : pn ≠ "")
    (hch : rec.current_cap_hit.isSome = true)
    (hcs : rec.current_salary.isSome = true)
    (hav : rec.aav.isSome = true)
    (hty : rec.total_years.isSome = true)
    (hes : rec.expiry_status.isSome = true)
    (hnm : rec.has_nmc.isSome = true)
    (hnt : rec.has_ntc.isSome = true)
    (hst : (store.filter (fun r =>
      r.player_name == pn && r.team_abbrev == rec.team_abbrev)).length ≤ 1) :
    ∃ r1 r2 : ContractRecord,
      ((upsert_contracts t1 store [rec]).1.filter (fun r =>
        r.player_name == pn && r.team_abbrev == rec.team_abbrev)) = [r1] ∧
      r1.updated_at = t1 ∧ r1.updated_at ≤ t2 ∧
      ((upsert_contracts t2 (upsert_contracts t1 store [rec]).1 [rec]).1.filter
          (fun r => r.player_name == pn && r.team_abbrev == rec.team_abbrev)) = [r2] ∧
      r2.player_name = pn ∧ r2.team_abbrev = rec.team_abbrev ∧
      r2.current_cap_hit = rec.current_cap_hit ∧
      r2.current_salary = rec.current_salary ∧
      r2.aav = rec.aav ∧ r2.total_years = rec.total_years ∧
      r2.expiry_status = rec.expiry_status ∧
      some r2.has_nmc = rec.has_nmc ∧ some r2.has_ntc = rec.has_ntc ∧
      r2.raw_data = rec ∧ r2.updated_at = t2 := by
  have htra : pyTruthyStr (some pn) = true := by
    simp [pyTruthyStr, hpne]
  have hs : ∀ (t : Nat) (st : List ContractRecord),
      (upsert_contracts t st [rec]).1 = upsertStep
        (fun r => r.player_name == pn && r.team_abbrev == rec.team_abbrev)
        (contractUpdate rec t) (contractInsert rec pn t) st := by
    intro t st
    simp only [upsert_contracts, hpn, Option.getD_some, htra, if_true]
  have hf : ∀ (t : Nat) (r : ContractRecord),
      (r.player_name == pn && r.team_abbrev == rec.team_abbrev) = true →
      ((contractUpdate rec t r).player_name == pn &&
        (contractUpdate rec t r).team_abbrev == rec.team_abbrev) = true := by
    intro t r h; exact h
  have hmk : ∀ t : Nat, ((contractInsert rec pn t).player_name == pn &&
      (contractInsert rec pn t).team_abbrev == rec.team_abbrev) = true := by
    intro t; simp [contractInsert]
  have hfil1 := upsertStep_filter
    (fun r => r.player_name == pn && r.team_abbrev == rec.team_abbrev) _ _ store
    (hf t1) (hmk t1) hst
  have step2 : ∀ r1 : ContractRecord,
      (upsert_contracts t1 store [rec]).1.filter (fun r =>
        r.player_name == pn && r.team_abbrev == rec.team_abbrev) = [r1] →
      (r1.player_name == pn && r1.team_abbrev == rec.team_abbrev) = true →
      ∃ r2 : ContractRecord,
        ((upsert_contracts t2 (upsert_contracts t1 store [rec]).1 [rec]).1.filter
            (fun r => r.player_name == pn && r.team_abbrev == rec.team_abbrev)) = [r2] ∧
        r2.player_name = pn ∧ r2.team_abbrev = rec.team_abbrev ∧
        r2.current_cap_hit = rec.current_cap_hit ∧
        r2.current_salary = rec.current_salary ∧
        r2.aav = rec.aav ∧ r2.total_years = rec.total_years ∧
        r2.expiry_status = rec.expiry_status ∧
        some r2.has_nmc = rec.has_nmc ∧ some r2.has_ntc = rec.has_ntc ∧
        r2.raw_data = rec ∧ r2.updated_at = t2 := by
    intro r1 hstore1 hp1
    rw [Bool.and_eq_true] at hp1
    have hpn1 : r1.player_name = pn := by simpa using hp1.1
    have hta1 : r1.team_abbrev = rec.team_abbrev := by simpa using hp1.2
    have hst1 : ((upsert_contracts t1 store [rec]).1.filter (fun r =>
        r.player_name == pn && r.team_abbrev == rec.team_abbrev)).length ≤ 1 := by
      rw [hstore1]; simp
    have hfil2 := upsertStep_filter
      (fun r => r.player_name == pn && r.team_abbrev == rec.team_abbrev) _ _
      ((upsert_contracts t1 store [rec]).1) (hf t2) (hmk t2) hst1
    rw [hstore1] at hfil2
    dsimp only at hfil2
    rw [hs t2 ((upsert_contracts t1 store [rec]).1)]
    refine ⟨contractUpdate rec t2 r1, hfil2, ?_, ?_, ?_, ?_, ?_, ?_, ?_, ?_, ?_, rfl, rfl⟩
    · exact hpn1
    · exact hta1
    · simp [contractUpdate, getOr_eq_of_isSome _ _ hch]
    · simp [contractUpdate, getOr_eq_of_isSome _ _ hcs]
    · simp [contractUpdate, getOr_eq_of_isSome _ _ hav]
    · simp [contractUpdate, getOr_eq_of_isSome _ _ hty]
    · simp [contractUpdate, getOr_eq_of_isSome _ _ hes]
    · simp [contractUpdate, some_getD_of_isSome _ _ hnm]
    · simp [contractUpdate, some_getD_of_isSome _ _ hnt]
  cases hsf : store.filter (fun r =>
      r.player_name == pn && r.team_abbrev == rec.team_abbrev) with
  | nil =>
    rw [hsf] at hfil1
    dsimp only at hfil1
    have hstore1 := hfil1
    rw [← hs t1 store] at hstore1
    obtain ⟨r2, h2⟩ := step2 _ hstore1 (hmk t1)
    exact ⟨_, r2, hstore1, rfl, hle, h2⟩
  | cons r0 rest0 =>
    rw [hsf] at hfil1
    dsimp only at hfil1
    have hp0 : (r0.player_name == pn && r0.team_abbrev == rec.team_abbrev) = true := by
      have : r0 ∈ store.filter (fun r =>
          r.player_name == pn && r.team_abbrev == rec.team_abbrev) := by
        rw [hsf]; exact List.mem_cons_self r0 rest0
      exact (List.mem_filter.mp this).2
    have hstore1 := hfil1
    rw [← hs t1 store] at hstore1
    obtain ⟨r2, h2⟩ := step2 _ hstore1 (hf t1 r0 hp0)
    exact ⟨_, r2, hstore1, rfl, hle, h2⟩

end Database

namespace Database

theorem upsert_advanced_twice (t1 t2 : Nat) (store : List AdvancedStatsRecord)
    (rec : AdvancedStatsDict) (pid : Int) (hle : t1 ≤ t2)
    (hpid : rec.player_id = some pid) (hpidne : pid ≠ 0)
    (h01 : rec.player_name.isSome = true)
    (h02 : rec.team_abbrev.isSome = true)
    (h03 : rec.position.isSome = true)
    (h04 : rec.games_played.isSome = true)
    (h05 : rec.toi_seconds.isSome = true)
    (h06 : rec.corsi_for.isSome = true)
    (h07 : rec.corsi_against.isSome = true)
    (h08 : rec.corsi_pct.isSome = true)
    (h09 : rec.corsi_rel.isSome = true)
    (h10 : rec.fenwick_for.isSome = true)
    (h11 : rec.fenwick_against.isSome = true)
    (h12 : rec.fenwick_pct.isSome = true)
    (h13 : rec.xg_for.isSome = true)
    (h14 : rec.xg_against.isSome = true)
    (h15 : rec.xg_pct.isSome = true)
    (h16 : rec.goals_above_expected.isSome = true)
    (h17 : rec.offensive_zone_start_pct.isSome = true)
    (h18 : rec.high_danger_chances_for.isSome = true)
    (h19 : rec.high_danger_chances_against.isSome = true)
    (hst : (store.filter (fun r => r.player_id == pid &&
      r.season == rec.season && r.situation == rec.situation.getD "all")).length ≤ 1) :
    ∃ r1 r2 : AdvancedStatsRecord,
      ((upsert_advanced_stats t1 store [rec]).1.filter (fun r =>
        r.player_id == pid && r.season == rec.season &&
          r.situation == rec.situation.getD "all")) = [r1] ∧
      r1.updated_at = t1 ∧ r1.updated_at ≤ t2 ∧
      ((upsert_advanced_stats t2 (upsert_advanced_stats t1 store [rec]).1
          [rec]).1.filter (fun r => r.player_id == pid &&
            r.season == rec.season &&
            r.situation == rec.situation.getD "all")) = [r2] ∧
      r2.player_id = pid ∧ r2.season = rec.season ∧
      r2.situation = rec.situation.getD "all" ∧
      r2.player_name = rec.player_name ∧ r2.team_abbrev = rec.team_abbrev ∧
      r2.position = rec.position ∧ r2.games_played = rec.games_played ∧
      r2.toi_seconds = rec.toi_seconds ∧
      r2.corsi_for = rec.corsi_for ∧ r2.corsi_against = rec.corsi_against ∧
      r2.corsi_pct = rec.corsi_pct ∧ r2.corsi_rel = rec.corsi_rel ∧
      r2.fenwick_for = rec.fenwick_for ∧
      r2.fenwick_against = rec.fenwick_against ∧
      r2.fenwick_pct = rec.fenwick_pct ∧
      r2.xg_for = rec.xg_for ∧ r2.xg_against = rec.xg_against ∧
      r2.xg_pct = rec.xg_pct ∧
      r2.goals_above_expected = rec.goals_above_expected ∧
      r2.oz_start_pct = rec.offensive_zone_start_pct ∧
      r2.hd_chances_for = rec.high_danger_chances_for ∧
      r2.hd_chances_against = rec.high_danger_chances_against ∧
      r2.raw_data = rec ∧ r2.updated_at = t2 := by
  have htra : pyTruthyInt (some pid) = true := by
    simp [pyTruthyInt, hpidne]
  have hs : ∀ (t : Nat) (st : List AdvancedStatsRecord),
      (upsert_advanced_stats t st [rec]).1 = upsertStep
        (fun r => r.player_id == pid && r.season == rec.season &&
          r.situation == rec.situation.getD "all")
        (advancedUpdate rec t)
        (advancedInsert rec pid (rec.situation.getD "all") t) st := by
    intro t st
    simp only [upsert_advanced_stats, hpid, Option.getD_some, htra, if_true]
  have hf : ∀ (t : Nat) (r : AdvancedStatsRecord),
      (r.player_id == pid && r.season == rec.season &&
        r.situation == rec.situation.getD "all") = true →
      ((advancedUpdate rec t r).player_id == pid &&
        (advancedUpdate rec t r).season == rec.season &&
        (advancedUpdate rec t r).situation == rec.situation.getD "all") = true := by
    intro t r h; exact h
  have hmk : ∀ t : Nat,
      ((advancedInsert rec pid (rec.situation.getD "all") t).player_id == pid &&
        (advancedInsert rec pid (rec.situation.getD "all") t).season == rec.season &&
        (advancedInsert rec pid (rec.situation.getD "all") t).situation ==
          rec.situation.getD "all") = true := by
    intro t; simp [advancedInsert]
  have hfil1 := upsertStep_filter
    (fun r => r.player_id == pid && r.season == rec.season &&
      r.situation == rec.situation.getD "all") _ _ store (hf t1) (hmk t1) hst
  have step2 : ∀ r1 : AdvancedStatsRecord,
      (upsert_advanced_stats t1 store [rec]).1.filter (fun r =>
        r.player_id == pid && r.season == rec.season &&
          r.situation == rec.situation.getD "all") = [r1] →
      (r1.player_id == pid && r1.season == rec.season &&
        r1.situation == rec.situation.getD "all") = true →
      ∃ r2 : AdvancedStatsRecord,
        ((upsert_advanced_stats t2 (upsert_advanced_stats t1 store [rec]).1
            [rec]).1.filter (fun r => r.player_id == pid &&
              r.season == rec.season &&
              r.situation == rec.situation.getD "all")) = [r2] ∧
        r2.player_id = pid ∧ r2.season = rec.season ∧
        r2.situation = rec.situation.getD "all" ∧
        r2.player_name = rec.player_name ∧ r2.team_abbrev = rec.team_abbrev ∧
        r2.position = rec.position ∧ r2.games_played = rec.games_played ∧
        r2.toi_seconds = rec.toi_seconds ∧
        r2.corsi_for = rec.corsi_for ∧ r2.corsi_against = rec.corsi_against ∧
        r2.corsi_pct = rec.corsi_pct ∧ r2.corsi_rel = rec.corsi_rel ∧
        r2.fenwick_for = rec.fenwick_for ∧
        r2.fenwick_against = rec.fenwick_against ∧
        r2.fenwick_pct = rec.fenwick_pct ∧
        r2.xg_for = rec.xg_for ∧ r2.xg_against = rec.xg_against ∧
        r2.xg_pct = rec.xg_pct ∧
        r2.goals_above_expected = rec.goals_above_expected ∧
        r2.oz_start_pct = rec.offensive_zone_start_pct ∧
        r2.hd_chances_for = rec.high_danger_chances_for ∧
        r2.hd_chances_against = rec.high_danger_chances_against ∧
        r2.raw_data = rec ∧ r2.updated_at = t2 := by
    intro r1 hstore1 hp1
    rw [Bool.and_eq_true, Bool.and_eq_true] at hp1
    have hk1 : r1.player_id = pid := by simpa using hp1.1.1
    have hk2 : r1.season = rec.season := by simpa using hp1.1.2
    have hk3 : r1.situation = rec.situation.getD "all" := by simpa using hp1.2
    have hst1 : ((upsert_advanced_stats t1 store [rec]).1.filter (fun r =>
        r.player_id == pid && r.season == rec.season &&
          r.situation == rec.situation.getD "all")).length ≤ 1 := by
      rw [hstore1]; simp
    have hfil2 := upsertStep_filter
      (fun r => r.player_id == pid && r.season == rec.season &&
        r.situation == rec.situation.getD "all") _ _
      ((upsert_advanced_stats t1 store [rec]).1) (hf t2) (hmk t2) hst1
    rw [hstore1] at hfil2
    dsimp only at hfil2
    rw [hs t2 ((upsert_advanced_stats t1 store [rec]).1)]
    refine ⟨advancedUpdate rec t2 r1, hfil2, hk1, hk2, hk3,
      ?_, ?_, ?_, ?_, ?_, ?_, ?_, ?_, ?_, ?_, ?_, ?_, ?_, ?_, ?_, ?_, ?_,
      ?_, ?_, rfl, rfl⟩
    · simp [advancedUpdate, getOr_eq_of_isSome _ _ h01]
    · simp [advancedUpdate, getOr_eq_of_isSome _ _ h02]
    · simp [advancedUpdate, getOr_eq_of_isSome _ _ h03]
    · simp [advancedUpdate, getOr_eq_of_isSome _ _ h04]
    · simp [advancedUpdate, getOr_eq_of_isSome _ _ h05]
    · simp [advancedUpdate, getOr_eq_of_isSome _ _ h06]
    · simp [advancedUpdate, getOr_eq_of_isSome _ _ h07]
    · simp [advancedUpdate, getOr_eq_of_isSome _ _ h08]
    · simp [advancedUpdate, getOr_eq_of_isSome _ _ h09]
    · simp [advancedUpdate, getOr_eq_of_isSome _ _ h10]
    · simp [advancedUpdate, getOr_eq_of_isSome _ _ h11]
    · simp [advancedUpdate, getOr_eq_of_isSome _ _ h12]
    · simp [advancedUpdate, getOr_eq_of_isSome _ _ h13]
    · simp [advancedUpdate, getOr_eq_of_isSome _ _ h14]
    · simp [advancedUpdate, getOr_eq_of_isSome _ _ h15]
    · simp [advancedUpdate, getOr_eq_of_isSome _ _ h16]
    · simp [advancedUpdate, getOr_eq_of_isSome _ _ h17]
    · simp [advancedUpdate, getOr_eq_of_isSome _ _ h18]
    · simp [advancedUpdate, getOr_eq_of_isSome _ _ h19]
  cases hsf : store.filter (fun r => r.player_id == pid &&
      r.season == rec.season && r.situation == rec.situation.getD "all") with
  | nil =>
    rw [hsf] at hfil1
    dsimp only at hfil1
    have hstore1 := hfil1
    rw [← hs t1 store] at hstore1
    obtain ⟨r2, h2⟩ := step2 _ hstore1 (hmk t1)
    exact ⟨_, r2, hstore1, rfl, hle, h2⟩
  | cons r0 rest0 =>
    rw [hsf] at hfil1
    dsimp only at hfil1
    have hp0 : (r0.player_id == pid && r0.season == rec.season &&
        r0.situation == rec.situation.getD "all") = true := by
      have : r0 ∈ store.filter (fun r => r.player_id == pid &&
          r.season == rec.season && r.situation == rec.situation.getD "all") := by
        rw [hsf]; exact List.mem_cons_self r0 rest0
      exact (List.mem_filter.mp this).2
    have hstore1 := hfil1
    rw [← hs t1 store] at hstore1
    obtain ⟨r2, h2⟩ := step2 _ hstore1 (hf t1 r0 hp0)
    exact ⟨_, r2, hstore1, rfl, hle, h2⟩

end Database

/-- C1: for each embedded entity kind (teams, contracts, advanced stats),
upserting the same normalized record twice leaves exactly one stored row for
its natural key; after the second call that row's mutable fields equal the
record's values and its `updated_at` equals the second call's (not earlier)
timestamp.  The store is assumed key-consistent (at most one row per natural
key), as every store produced by the upserts alone is. -/
theorem upsert_idempotent_per_kind :
    (∀ (t1 t2 : Nat) (store : List Database.TeamRecord)
      (rec : Database.TeamDict) (a : String), t1 ≤ t2 →
      rec.abbreviation = some a → a ≠ "" →
      rec.name.isSome = true → rec.conference.isSome = true →
      rec.division.isSome = true →
      (store.filter (fun r => r.abbrev_ == a)).length ≤ 1 →
      ∃ r1 : Database.TeamRecord,
        ((Database.upsert_teams t1 store [rec]).1.filter
          (fun r => r.abbrev_ == a)) = [r1] ∧
        r1.updated_at = t1 ∧ r1.updated_at ≤ t2 ∧
        ((Database.upsert_teams t2 (Database.upsert_teams t1 store [rec]).1
            [rec]).1.filter (fun r => r.abbrev_ == a)) =
          [{ abbrev_ := a, name := rec.name, conference := rec.conference,
             division := rec.division, raw_data := rec, updated_at := t2 }]) ∧
    (∀ (t1 t2 : Nat) (store : List Database.ContractRecord)
      (rec : Database.ContractDict) (pn : String), t1 ≤ t2 →
      rec.player_name = some pn → pn ≠ "" →
      rec.current_cap_hit.isSome = true → rec.current_salary.isSome = true →
      rec.aav.isSome = true → rec.total_years.isSome = true →
      rec.expiry_status.isSome = true → rec.has_nmc.isSome = true →
      rec.has_ntc.isSome = true →
      (store.filter (fun r =>
        r.player_name == pn && r.team_abbrev == rec.team_abbrev)).length ≤ 1 →
      ∃ r1 r2 : Database.ContractRecord,
        ((Database.upsert_contracts t1 store [rec]).1.filter (fun r =>
          r.player_name == pn && r.team_abbrev == rec.team_abbrev)) = [r1] ∧
        r1.updated_at = t1 ∧ r1.updated_at ≤ t2 ∧
        ((Database.upsert_contracts t2
            (Database.upsert_contracts t1 store [rec]).1 [rec]).1.filter
          (fun r => r.player_name == pn &&
            r.team_abbrev == rec.team_abbrev)) = [r2] ∧
        r2.player_name = pn ∧ r2.team_abbrev = rec.team_abbrev ∧
        r2.current_cap_hit = rec.current_cap_hit ∧
        r2.current_salary = rec.current_salary ∧
        r2.aav = rec.aav ∧ r2.total_years = rec.total_years ∧
        r2.expiry_status = rec.expiry_status ∧
        some r2.has_nmc = rec.has_nmc ∧ some r2.has_ntc = rec.has_ntc ∧
        r2.raw_data = rec ∧ r2.updated_at = t2) ∧
    (∀ (t1 t2 : Nat) (store : List Database.AdvancedStatsRecord)
      (rec : Database.AdvancedStatsDict) (pid : Int), t1 ≤ t2 →
      rec.player_id = some pid → pid ≠ 0 →
      rec.player_name.isSome = true → rec.team_abbrev.isSome = true →
      rec.position.isSome = true → rec.games_played.isSome = true →
      rec.toi_seconds.isSome = true → rec.corsi_for.isSome = true →
      rec.corsi_against.isSome = true → rec.corsi_pct.isSome = true →
      rec.corsi_rel.isSome = true → rec.fenwick_for.isSome = true →
      rec.fenwick_against.isSome = true → rec.fenwick_pct.isSome = true →
      rec.xg_for.isSome = true → rec.xg_against.isSome = true →
      rec.xg_pct.isSome = true → rec.goals_above_expected.isSome = true →
      rec.offensive_zone_start_pct.isSome = true →
      rec.high_danger_chances_for.isSome = true →
      rec.high_danger_chances_against.isSome = true →
      (store.filter (fun r => r.player_id == pid &&
        r.season == rec.season &&
        r.situation == rec.situation.getD "all")).length ≤ 1 →
      ∃ r1 r2 : Database.AdvancedStatsRecord,
        ((Database.upsert_advanced_stats t1 store [rec]).1.filter (fun r =>
          r.player_id == pid && r.season == rec.season &&
            r.situation == rec.situation.getD "all")) = [r1] ∧
        r1.updated_at = t1 ∧ r1.updated_at ≤ t2 ∧
        ((Database.upsert_advanced_stats t2
            (Database.upsert_advanced_stats t1 store [rec]).1 [rec]).1.filter
          (fun r => r.player_id == pid && r.season == rec.season &&
            r.situation == rec.situation.getD "all")) = [r2] ∧
        r2.player_id = pid ∧ r2.season = rec.season ∧
        r2.situation = rec.situation.getD "all" ∧
        r2.player_name = rec.player_name ∧ r2.team_abbrev = rec.team_abbrev ∧
        r2.position = rec.position ∧ r2.games_played = rec.games_played ∧
        r2.toi_seconds = rec.toi_seconds ∧
        r2.corsi_for = rec.corsi_for ∧ r2.corsi_against = rec.corsi_against ∧
        r2.corsi_pct = rec.corsi_pct ∧ r2.corsi_rel = rec.corsi_rel ∧
        r2.fenwick_for = rec.fenwick_for ∧
        r2.fenwick_against = rec.fenwick_against ∧
        r2.fenwick_pct = rec.fenwick_pct ∧
        r2.xg_for = rec.xg_for ∧ r2.xg_against = rec.xg_against ∧
        r2.xg_pct = rec.xg_pct ∧
        r2.goals_above_expected = rec.goals_above_expected ∧
        r2.oz_start_pct = rec.offensive_zone_start_pct ∧
        r2.hd_chances_for = rec.high_danger_chances_for ∧
        r2.hd_chances_against = rec.high_danger_chances_against ∧
        r2.raw_data = rec ∧ r2.updated_at = t2) :=
  ⟨Database.upsert_teams_twice, Database.upsert_contracts_twice,
    Database.upsert_advanced_twice⟩

/-- Witness for C1: concrete double upserts of a team, a contract and an
advanced-stats record into the empty store. -/
theorem upsert_idempotent_per_kind_witness :
    (∃ r1 : Database.TeamRecord,
      ((Database.upsert_teams 0 []
        [⟨some "TOR", some "Toronto Maple Leafs", some "Eastern",
          some "Atlantic"⟩]).1.filter (fun r => r.abbrev_ == "TOR")) = [r1] ∧
      r1.updated_at = 0 ∧ r1.updated_at ≤ 1 ∧
      ((Database.upsert_teams 1 (Database.upsert_teams 0 []
          [⟨some "TOR", some "Toronto Maple Leafs", some "Eastern",
            some "Atlantic"⟩]).1
          [⟨some "TOR", some "Toronto Maple Leafs", some "Eastern",
            some "Atlantic"⟩]).1.filter (fun r => r.abbrev_ == "TOR")) =
        [⟨"TOR", some "Toronto Maple Leafs", some "Eastern", some "Atlantic",
          ⟨some "TOR", some "Toronto Maple Leafs", some "Eastern",
            some "Atlantic"⟩, 1⟩]) ∧
    (∃ r1 r2 : Database.ContractRecord,
      ((Database.upsert_contracts 0 []
        [⟨some "John Doe", some "TOR", some 1, some "20242025", some "entry",
          some "20242025", some "20262027", some 3, some 15000000,
          some 5000000, some 5000000, some 4500000, some "UFA", some false,
          some true, some "puckpedia"⟩]).1.filter (fun r =>
            r.player_name == "John Doe" && r.team_abbrev == some "TOR")) = [r1] ∧
      r1.updated_at = 0 ∧ r1.updated_at ≤ 1 ∧
      ((Database.upsert_contracts 1 (Database.upsert_contracts 0 []
          [⟨some "John Doe", some "TOR", some 1, some "20242025", some "entry",
            some "20242025", some "20262027", some 3, some 15000000,
            some 5000000, some 5000000, some 4500000, some "UFA", some false,
            some true, some "puckpedia"⟩]).1
          [⟨some "John Doe", some "TOR", some 1, some "20242025", some "entry",
            some "20242025", some "20262027", some 3, some 15000000,
            some 5000000, some 5000000, some 4500000, some "UFA", some false,
            some true, some "puckpedia"⟩]).1.filter (fun r =>
            r.player_name == "John Doe" && r.team_abbrev == some "TOR")) = [r2] ∧
      r2.player_name = "John Doe" ∧ r2.team_abbrev = some "TOR" ∧
      r2.current_cap_hit = some 5000000 ∧ r2.current_salary = some 4500000 ∧
      r2.aav = some 5000000 ∧ r2.total_years = some 3 ∧
      r2.expiry_status = some "UFA" ∧
      some r2.has_nmc = some false ∧ some r2.has_ntc = some true ∧
      r2.raw_data = ⟨some "John Doe", some "TOR", some 1, some "20242025",
        some "entry", some "20242025", some "20262027", some 3, some 15000000,
        some 5000000, some 5000000, some 4500000, some "UFA", some false,
        some true, some "puckpedia"⟩ ∧ r2.updated_at = 1) ∧
    (∃ r1 r2 : Database.AdvancedStatsRecord,
      ((Database.upsert_advanced_stats 0 []
        [⟨some 5, some "20242025", some "all", some "John Doe", some "TOR",
          some "C", some 10, some 6000, some 50, some 40, some ⟨55, -2⟩,
          some ⟨5, -2⟩, some 45, some 35, some ⟨52, -2⟩, some ⟨31, -1⟩,
          some ⟨25, -1⟩, some ⟨55, -2⟩, some ⟨12, -1⟩, some ⟨6, -1⟩,
          some 12, some 9, some "moneypuck"⟩]).1.filter (fun r =>
            r.player_id == 5 && r.season == some "20242025" &&
              r.situation == "all")) = [r1] ∧
      r1.updated_at = 0 ∧ r1.updated_at ≤ 1 ∧
      ((Database.upsert_advanced_stats 1 (Database.upsert_advanced_stats 0 []
          [⟨some 5, some "20242025", some "all", some "John Doe", some "TOR",
            some "C", some 10, some 6000, some 50, some 40, some ⟨55, -2⟩,
            some ⟨5, -2⟩, some 45, some 35, some ⟨52, -2⟩, some ⟨31, -1⟩,
            some ⟨25, -1⟩, some ⟨55, -2⟩, some ⟨12, -1⟩, some ⟨6, -1⟩,
            some 12, some 9, some "moneypuck"⟩]).1
          [⟨some 5, some "20242025", some "all", some "John Doe", some "TOR",
            some "C", some 10, some 6000, some 50, some 40, some ⟨55, -2⟩,
            some ⟨5, -2⟩, some 45, some 35, some ⟨52, -2⟩, some ⟨31, -1⟩,
            some ⟨25, -1⟩, some ⟨55, -2⟩, some ⟨12, -1⟩, some ⟨6, -1⟩,
            some 12, some 9, some "moneypuck"⟩]).1.filter (fun r =>
            r.player_id == 5 && r.season == some "20242025" &&
              r.situation == "all")) = [r2] ∧
      r2.player_id = 5 ∧ r2.season = some "20242025" ∧ r2.situation = "all" ∧
      r2.player_name = some "John Doe" ∧ r2.team_abbrev = some "TOR" ∧
      r2.position = some "C" ∧ r2.games_played = some 10 ∧
      r2.toi_seconds = some 6000 ∧
      r2.corsi_for = some 50 ∧ r2.corsi_against = some 40 ∧
      r2.corsi_pct = some ⟨55, -2⟩ ∧ r2.corsi_rel = some ⟨5, -2⟩ ∧
      r2.fenwick_for = some 45 ∧ r2.fenwick_against = some 35 ∧
      r2.fenwick_pct = some ⟨52, -2⟩ ∧
      r2.xg_for = some ⟨31, -1⟩ ∧ r2.xg_against = some ⟨25, -1⟩ ∧
      r2.xg_pct = some ⟨55, -2⟩ ∧
      r2.goals_above_expected = some ⟨12, -1⟩ ∧
      r2.oz_start_pct = some ⟨6, -1⟩ ∧
      r2.hd_chances_for = some 12 ∧ r2.hd_chances_against = some 9 ∧
      r2.raw_data = ⟨some 5, some "20242025", some "all", some "John Doe",
        some "TOR", some "C", some 10, some 6000, some 50, some 40,
        some ⟨55, -2⟩, some ⟨5, -2⟩, some 45, some 35, some ⟨52, -2⟩,
        some ⟨31, -1⟩, some ⟨25, -1⟩, some ⟨55, -2⟩, some ⟨12, -1⟩,
        some ⟨6, -1⟩, some 12, some 9, some "moneypuck"⟩ ∧
      r2.updated_at = 1) :=
  ⟨upsert_idempotent_per_kind.1 0 1 []
    (⟨some "TOR", some "Toronto Maple Leafs", some "Eastern",
      some "Atlantic"⟩ : Database.TeamDict) "TOR" (by decide) rfl (by decide)
    rfl rfl rfl (by decide),
   upsert_idempotent_per_kind.2.1 0 1 []
    (⟨some "John Doe", some "TOR", some 1, some "20242025", some "entry",
      some "20242025", some "20262027", some 3, some 15000000,
      some 5000000, some 5000000, some 4500000, some "UFA", some false,
      some true, some "puckpedia"⟩ : Database.ContractDict) "John Doe"
    (by decide) rfl (by decide) rfl rfl rfl rfl rfl rfl rfl (by decide),
   upsert_idempotent_per_kind.2.2 0 1 []
    (⟨some 5, some "20242025", some "all", some "John Doe", some "TOR",
      some "C", some 10, some 6000, some 50, some 40, some ⟨55, -2⟩,
      some ⟨5, -2⟩, some 45, some 35, some ⟨52, -2⟩, some ⟨31, -1⟩,
      some ⟨25, -1⟩, some ⟨55, -2⟩, some ⟨12, -1⟩, some ⟨6, -1⟩,
      some 12, some 9, some "moneypuck"⟩ : Database.AdvancedStatsDict) 5
    (by decide) rfl (by decide)
    rfl rfl rfl rfl rfl rfl rfl rfl rfl rfl rfl rfl rfl rfl rfl rfl rfl
    rfl rfl (by decide)⟩

namespace Database

theorem upsert_players_skips_and_counts (now : Nat) :
    ∀ (ps : List PlayerDict) (store : List PlayerRecord),
      upsert_players now store ps =
        upsert_players now store (ps.filter (fun p => pyTruthyInt p.id)) ∧
      (upsert_players now store ps).2 =
        (ps.filter (fun p => pyTruthyInt p.id)).length := by
  intro ps
  induction ps with
  | nil => intro store; exact ⟨rfl, rfl⟩
  | cons p rest ih =>
    intro store
    cases hk : pyTruthyInt p.id with
    | true =>
      constructor
      · simp only [upsert_players, hk, if_true, List.filter_cons, hk]
        rw [(ih _).1]
      · simp only [upsert_players, hk, if_true, List.filter_cons, hk,
          List.length_cons]
        rw [(ih _).2]
    | false =>
      constructor
      · simp only [upsert_players, hk, Bool.false_eq_true, if_false,
          List.filter_cons, hk]
        exact (ih store).1
      · simp only [upsert_players, hk, Bool.false_eq_true, if_false,
          List.filter_cons, hk]
        exact (ih store).2

theorem upsert_contracts_skips_and_counts (now : Nat) :
    ∀ (cs : List ContractDict) (store : List ContractRecord),
      upsert_contracts now store cs =
        upsert_contracts now store (cs.filter (fun c => pyTruthyStr c.player_name)) ∧
      (upsert_contracts now store cs).2 =
        (cs.filter (fun c => pyTruthyStr c.player_name)).length := by
  intro cs
  induction cs with
  | nil => intro store; exact ⟨rfl, rfl⟩
  | cons c rest ih =>
    intro store
    cases hk : pyTruthyStr c.player_name with
    | true =>
      constructor
      · simp only [upsert_contracts, hk, if_true, List.filter_cons, hk]
        rw [(ih _).1]
      · simp only [upsert_contracts, hk, if_true, List.filter_cons, hk,
          List.length_cons]
        rw [(ih _).2]
    | false =>
      constructor
      · simp only [upsert_contracts, hk, Bool.false_eq_true, if_false,
          List.filter_cons, hk]
        exact (ih store).1
      · simp only [upsert_contracts, hk, Bool.false_eq_true, if_false,
          List.filter_cons, hk]
        exact (ih store).2

end Database

/-- C2 counterexample: a contract record that has a player name but no team
abbreviation is NOT skipped by `upsert_contracts` — it is processed, counted
(the call returns 1, not 0) and stored with a null team, contradicting the
claim that a record missing either component of the (player name, team
abbreviation) key is skipped and not counted. -/
theorem upsert_contracts_missing_team_processed :
    (Database.upsert_contracts 0 []
      [⟨some "John Doe", none, none, none, none, none, none, none, none,
        none, none, none, none, none, none, none⟩]).2 = 1 ∧
    (Database.upsert_contracts 0 []
      [⟨some "John Doe", none, none, none, none, none, none, none, none,
        none, none, none, none, none, none, none⟩]).1 ≠ [] := by
  constructor
  · rfl
  · decide

/-- C2 (amended): for `upsert_players` and `upsert_contracts`, records with a
falsy natural-key component that the code checks (`id` for players,
`player_name` for contracts) are skipped without raising and without being
counted — the result only depends on the records passing the key check — and
the returned value is the number of records processed (inserted plus updated,
indistinguishably).  For `upsert_contracts` a missing `team_abbrev` does NOT
cause a skip (see the counterexample): the record is processed with a null
team. -/
theorem upsert_skip_and_count :
    (∀ (now : Nat) (ps : List Database.PlayerDict)
      (store : List Database.PlayerRecord),
      Database.upsert_players now store ps =
        Database.upsert_players now store
          (ps.filter (fun p => pyTruthyInt p.id)) ∧
      (Database.upsert_players now store ps).2 =
        (ps.filter (fun p => pyTruthyInt p.id)).length) ∧
    (∀ (now : Nat) (cs : List Database.ContractDict)
      (store : List Database.ContractRecord),
      Database.upsert_contracts now store cs =
        Database.upsert_contracts now store
          (cs.filter (fun c => pyTruthyStr c.player_name)) ∧
      (Database.upsert_contracts now store cs).2 =
        (cs.filter (fun c => pyTruthyStr c.player_name)).length) :=
  ⟨fun now ps store => Database.upsert_players_skips_and_counts now ps store,
   fun now cs store => Database.upsert_contracts_skips_and_counts now cs store⟩

theorem toDigitsCore_length_eq :
    ∀ (f n : Nat) (l : List Char), n < f →
      (Nat.toDigitsCore 10 f n l).length = Nat.log 10 n + 1 + l.length := by
  intro f
  induction f with
  | zero => intro n l h; omega
  | succ f ih =>
    intro n l h
    simp only [Nat.toDigitsCore]
    by_cases hdiv : n / 10 = 0
    · rw [if_pos hdiv]
      have hn : n < 10 := by omega
      have hlog : Nat.log 10 n = 0 := Nat.log_eq_zero_iff.mpr (Or.inl hn)
      simp [hlog]
      omega
    · rw [if_neg hdiv]
      have hn10 : 10 ≤ n := by omega
      have hlt : n / 10 < f := by omega
      rw [ih (n / 10) _ hlt]
      have hbase := Nat.log_div_base 10 n
      have hpos : 0 < Nat.log 10 n := Nat.log_pos (by norm_num) hn10
      simp only [List.length_cons]
      omega

theorem nat_repr_length_eq (n : Nat) :
    (Nat.repr n).length = Nat.log 10 n + 1 := by
  show ((Nat.toDigits 10 n).asString).length = Nat.log 10 n + 1
  rw [List.length_asString]
  show (Nat.toDigitsCore 10 (n + 1) n []).length = Nat.log 10 n + 1
  rw [toDigitsCore_length_eq (n + 1) n [] (Nat.lt_succ_self n)]
  rfl

theorem toString_nat_length_four (n : Nat) (h1 : 1000 ≤ n) (h2 : n < 10000) :
    (toString n).length = 4 := by
  show (Nat.repr n).length = 4
  rw [nat_repr_length_eq]
  have : Nat.log 10 n = 3 := by
    apply Nat.log_eq_of_pow_le_of_lt_pow
    · norm_num; omega
    · norm_num; omega
  omega

/-- C3: the season rollover rule.  In October–December the structured-API
extractor returns the current year concatenated with the next year (an
8-digit string for 4-digit years) and the CSV extractor the 4-digit current
year; in January–September both use the previous year instead. -/
theorem season_id_derivation :
    ∀ (year month : Nat), 1001 ≤ year → year ≤ 9998 →
      (10 ≤ month → month ≤ 12 →
        NHLRosterScraper.get_current_season year month =
          toString year ++ toString (year + 1) ∧
        (NHLRosterScraper.get_current_season year month).length = 8 ∧
        MoneyPuckScraper.get_current_season year month = toString year ∧
        (MoneyPuckScraper.get_current_season year month).length = 4) ∧
      (1 ≤ month → month ≤ 9 →
        NHLRosterScraper.get_current_season year month =
          toString (year - 1) ++ toString year ∧
        (NHLRosterScraper.get_current_season year month).length = 8 ∧
        MoneyPuckScraper.get_current_season year month = toString (year - 1) ∧
        (MoneyPuckScraper.get_current_season year month).length = 4) := by
  intro year month hy1 hy2
  constructor
  · intro h10 _
    have hr : NHLRosterScraper.get_current_season year month =
        toString year ++ toString (year + 1) := by
      simp [NHLRosterScraper.get_current_season, h10]
    have hm : MoneyPuckScraper.get_current_season year month = toString year := by
      simp [MoneyPuckScraper.get_current_season, h10]
    refine ⟨hr, ?_, hm, ?_⟩
    · rw [hr, String.length_append,
        toString_nat_length_four year (by omega) (by omega),
        toString_nat_length_four (year + 1) (by omega) (by omega)]
    · rw [hm, toString_nat_length_four year (by omega) (by omega)]
  · intro _ h9
    have hlt : ¬ 10 ≤ month := by omega
    have hsub : year - 1 + 1 = year := by omega
    have hr : NHLRosterScraper.get_current_season year month =
        toString (year - 1) ++ toString year := by
      simp only [NHLRosterScraper.get_current_season, if_neg hlt, hsub]
    have hm : MoneyPuckScraper.get_current_season year month =
        toString (year - 1) := by
      simp only [MoneyPuckScraper.get_current_season, if_neg hlt]
    refine ⟨hr, ?_, hm, ?_⟩
    · rw [hr, String.length_append,
        toString_nat_length_four (year - 1) (by omega) (by omega),
        toString_nat_length_four year (by omega) (by omega)]
    · rw [hm, toString_nat_length_four (year - 1) (by omega) (by omega)]

/-- Witness for C3 at November 2024 and March 2024. -/
theorem season_id_derivation_witness :
    (NHLRosterScraper.get_current_season 2024 11 =
        toString 2024 ++ toString 2025 ∧
      (NHLRosterScraper.get_current_season 2024 11).length = 8 ∧
      MoneyPuckScraper.get_current_season 2024 11 = toString 2024 ∧
      (MoneyPuckScraper.get_current_season 2024 11).length = 4) ∧
    (NHLRosterScraper.get_current_season 2024 3 =
        toString 2023 ++ toString 2024 ∧
      (NHLRosterScraper.get_current_season 2024 3).length = 8 ∧
      MoneyPuckScraper.get_current_season 2024 3 = toString 2023 ∧
      (MoneyPuckScraper.get_current_season 2024 3).length = 4) :=
  ⟨(season_id_derivation 2024 11 (by decide) (by decide)).1 (by decide)
      (by decide),
   (season_id_derivation 2024 3 (by decide) (by decide)).2 (by decide)
      (by decide)⟩

theorem requestTimes_length (R : Rat) :
    ∀ (last : Option Rat) (ts : List Rat),
      (requestTimes R last ts).length = ts.length := by
  intro last ts
  induction ts generalizing last with
  | nil => rfl
  | cons now rest ih => simp [requestTimes, ih]

theorem requestTimes_last_ge (R : Rat) (hR : 0 < R) :
    ∀ (ts : List Rat) (t0 : Rat),
      t0 + (ts.length : Rat) / R ≤ (requestTimes R (some t0) ts).getLastD t0 := by
  intro ts
  induction ts with
  | nil => intro t0; simp [requestTimes]
  | cons now rest ih =>
    intro t0
    have hfire : t0 + 1 / R ≤ nextRequestTime R (some t0) now := by
      simp [nextRequestTime]
    calc t0 + ((now :: rest).length : Rat) / R
        = (t0 + 1 / R) + (rest.length : Rat) / R := by
          have hc : ((now :: rest).length : Rat) = (rest.length : Rat) + 1 := by
            push_cast [List.length_cons]
            ring
          rw [hc, add_div]
          ring
      _ ≤ nextRequestTime R (some t0) now + (rest.length : Rat) / R :=
          add_le_add_right hfire _
      _ ≤ (requestTimes R (some (nextRequestTime R (some t0) now))
            rest).getLastD (nextRequestTime R (some t0) now) :=
          ih (nextRequestTime R (some t0) now)
      _ = (requestTimes R (some t0) (now :: rest)).getLastD t0 := by
          rw [show requestTimes R (some t0) (now :: rest) =
            nextRequestTime R (some t0) now ::
              requestTimes R (some (nextRequestTime R (some t0) now)) rest
            from rfl, List.getLastD_cons]

/-- C6 (modelled from the spec, the rate-limited client's source being outside
`src/`): for a ceiling of `R` requests per second, `N` sequential calls take
at least `(N-1)/R` seconds end to end — the last request fires at least
`(N-1)/R` after the first. -/
theorem rate_limiter_lower_bound (R : Rat) (ts : List Rat)
    (hR : 0 < R) (hne : ts ≠ []) :
    ((ts.length : Rat) - 1) / R ≤
      (requestTimes R none ts).getLastD 0 - (requestTimes R none ts).headD 0 := by
  cases ts with
  | nil => exact absurd rfl hne
  | cons now rest =>
    have hunfold : requestTimes R none (now :: rest) =
        now :: requestTimes R (some now) rest := by
      simp [requestTimes, nextRequestTime]
    rw [hunfold]
    have hlast := requestTimes_last_ge R hR rest now
    have hcast : (((now :: rest).length : Rat) - 1) = (rest.length : Rat) := by
      push_cast [List.length_cons]
      ring
    rw [hcast]
    have hhead : (now :: requestTimes R (some now) rest).headD 0 = now := rfl
    rw [hhead, List.getLastD_cons]
    linarith

/-- Witness for C6: three requests at rate 2/sec, all arriving at time 0. -/
theorem rate_limiter_lower_bound_witness :
    ((([0, 0, 0] : List Rat).length : Rat) - 1) / 2 ≤
      (requestTimes 2 none [0, 0, 0]).getLastD 0 -
        (requestTimes 2 none [0, 0, 0]).headD 0 :=
  rate_limiter_lower_bound 2 [0, 0, 0] (by norm_num) (List.cons_ne_nil 0 [0, 0])

namespace Database

theorem upsert_teams_stamped (now : Nat) :
    ∀ (ts : List TeamDict) (store : List TeamRecord) (r : TeamRecord),
      r ∈ (upsert_teams now store ts).1 → r ∈ store ∨ r.updated_at = now := by
  intro ts
  induction ts with
  | nil => intro store r hr; exact Or.inl hr
  | cons t rest ih =>
    intro store r hr
    by_cases hk : pyTruthyStr t.abbreviation = true
    · simp only [upsert_teams, hk, if_true] at hr
      rcases ih _ r hr with h | h
      · rcases mem_upsertStep _ _ _ _ r h with h' | ⟨a, _, rfl⟩ | rfl
        · exact Or.inl h'
        · exact Or.inr rfl
        · exact Or.inr rfl
      · exact Or.inr h
    · have hk' : pyTruthyStr t.abbreviation = false := by simpa using hk
      simp only [upsert_teams, hk', Bool.false_eq_true, if_false] at hr
      exact ih store r hr

theorem upsert_players_stamped (now : Nat) :
    ∀ (ps : List PlayerDict) (store : List PlayerRecord) (r : PlayerRecord),
      r ∈ (upsert_players now store ps).1 → r ∈ store ∨ r.updated_at = now := by
  intro ps
  induction ps with
  | nil => intro store r hr; exact Or.inl hr
  | cons p rest ih =>
    intro store r hr
    by_cases hk : pyTruthyInt p.id = true
    · simp only [upsert_players, hk, if_true] at hr
      rcases ih _ r hr with h | h
      · rcases mem_upsertStep _ _ _ _ r h with h' | ⟨a, _, rfl⟩ | rfl
        · exact Or.inl h'
        · exact Or.inr rfl
        · exact Or.inr rfl
      · exact Or.inr h
    · have hk' : pyTruthyInt p.id = false := by simpa using hk
      simp only [upsert_players, hk', Bool.false_eq_true, if_false] at hr
      exact ih store r hr

theorem upsert_contracts_stamped (now : Nat) :
    ∀ (cs : List ContractDict) (store : List ContractRecord) (r : ContractRecord),
      r ∈ (upsert_contracts now store cs).1 → r ∈ store ∨ r.updated_at = now := by
  intro cs
  induction cs with
  | nil => intro store r hr; exact Or.inl hr
  | cons c rest ih =>
    intro store r hr
    by_cases hk : pyTruthyStr c.player_name = true
    · simp only [upsert_contracts, hk, if_true] at hr
      rcases ih _ r hr with h | h
      · rcases mem_upsertStep _ _ _ _ r h with h' | ⟨a, _, rfl⟩ | rfl
        · exact Or.inl h'
        · exact Or.inr rfl
        · exact Or.inr rfl
      · exact Or.inr h
    · have hk' : pyTruthyStr c.player_name = false := by simpa using hk
      simp only [upsert_contracts, hk', Bool.false_eq_true, if_false] at hr
      exact ih store r hr

theorem upsert_advanced_stamped (now : Nat) :
    ∀ (ss : List AdvancedStatsDict) (store : List AdvancedStatsRecord)
      (r : AdvancedStatsRecord),
      r ∈ (upsert_advanced_stats now store ss).1 →
        r ∈ store ∨ r.updated_at = now := by
  intro ss
  induction ss with
  | nil => intro store r hr; exact Or.inl hr
  | cons s rest ih =>
    intro store r hr
    by_cases hk : pyTruthyInt s.player_id = true
    · simp only [upsert_advanced_stats, hk, if_true] at hr
      rcases ih _ r hr with h | h
      · rcases mem_upsertStep _ _ _ _ r h with h' | ⟨a, _, rfl⟩ | rfl
        · exact Or.inl h'
        · exact Or.inr rfl
        · exact Or.inr rfl
      · exact Or.inr h
    · have hk' : pyTruthyInt s.player_id = false := by simpa using hk
      simp only [upsert_advanced_stats, hk', Bool.false_eq_true, if_false] at hr
      exact ih store r hr

end Database

/-- C9 counterexample: the `teams` table has no `source` column, so a stored
team record carries no provenance tag, contrary to the claimed invariant that
every record of every entity kind does. -/
theorem teams_rows_lack_source_column :
    ¬ ("source" ∈ Database.teamsColumns) := by decide

/-- C9 (amended): only the `player_stats`, `contracts` and `advanced_stats`
tables carry a `source` column; the `players`, `teams`, `games` and `rosters`
tables do not.  Every table has an `updated_at` column, and each embedded
upsert stamps every row it writes (inserted or updated) with the call's
timestamp. -/
theorem provenance_and_updated_at :
    ("source" ∈ Database.playerStatsColumns ∧
      "source" ∈ Database.contractsColumns ∧
      "source" ∈ Database.advancedStatsColumns) ∧
    ("source" ∉ Database.playersColumns ∧
      "source" ∉ Database.teamsColumns ∧
      "source" ∉ Database.gamesColumns ∧
      "source" ∉ Database.rostersColumns) ∧
    ("updated_at" ∈ Database.playersColumns ∧
      "updated_at" ∈ Database.playerStatsColumns ∧
      "updated_at" ∈ Database.teamsColumns ∧
      "updated_at" ∈ Database.gamesColumns ∧
      "updated_at" ∈ Database.contractsColumns ∧
      "updated_at" ∈ Database.advancedStatsColumns ∧
      "updated_at" ∈ Database.rostersColumns) ∧
    ((∀ (now : Nat) (ts : List Database.TeamDict)
        (store : List Database.TeamRecord) (r : Database.TeamRecord),
        r ∈ (Database.upsert_teams now store ts).1 →
          r ∈ store ∨ r.updated_at = now) ∧
      (∀ (now : Nat) (ps : List Database.PlayerDict)
        (store : List Database.PlayerRecord) (r : Database.PlayerRecord),
        r ∈ (Database.upsert_players now store ps).1 →
          r ∈ store ∨ r.updated_at = now) ∧
      (∀ (now : Nat) (cs : List Database.ContractDict)
        (store : List Database.ContractRecord) (r : Database.ContractRecord),
        r ∈ (Database.upsert_contracts now store cs).1 →
          r ∈ store ∨ r.updated_at = now) ∧
      (∀ (now : Nat) (ss : List Database.AdvancedStatsDict)
        (store : List Database.AdvancedStatsRecord)
        (r : Database.AdvancedStatsRecord),
        r ∈ (Database.upsert_advanced_stats now store ss).1 →
          r ∈ store ∨ r.updated_at = now)) :=
  ⟨⟨by decide, by decide, by decide⟩,
   ⟨by decide, by decide, by decide, by decide⟩,
   ⟨by decide, by decide, by decide, by decide, by decide, by decide, by decide⟩,
   ⟨fun now ts store r => Database.upsert_teams_stamped now ts store r,
    fun now ps store r => Database.upsert_players_stamped now ps store r,
    fun now cs store r => Database.upsert_contracts_stamped now cs store r,
    fun now ss store r => Database.upsert_advanced_stamped now ss store r⟩⟩

theorem map_eq_self_of_fix {α : Type} (f : α → α) :
    ∀ (l : List α), (∀ c ∈ l, f c = c) → l.map f = l := by
  intro l
  induction l with
  | nil => intro _; rfl
  | cons a t ih =>
    intro h
    rw [List.map_cons, h a (List.mem_cons_self a t),
      ih (fun c hc => h c (List.mem_cons_of_mem a hc))]

theorem dropWhile_eq_self_of_all {α : Type} (p : α → Bool) (l : List α)
    (h : ∀ c ∈ l, p c = false) : l.dropWhile p = l := by
  cases l with
  | nil => rfl
  | cons a t => rw [List.dropWhile_cons, if_neg (by simp [h a (List.mem_cons_self a t)])]

theorem pyStrip_eq_self (cs : List Char)
    (h : ∀ c ∈ cs, c.isWhitespace = false) : pyStrip cs = cs := by
  unfold pyStrip
  rw [dropWhile_eq_self_of_all _ cs h,
    dropWhile_eq_self_of_all _ cs.reverse
      (fun c hc => h c (List.mem_reverse.mp hc)),
    List.reverse_reverse]

theorem contains_eq_false_of_not_mem (l : List Char) (x : Char)
    (h : x ∉ l) : l.contains x = false := by
  cases hc : l.contains x with
  | false => rfl
  | true => exact absurd (List.mem_of_elem_eq_true hc) h

theorem digit_mem_facts (c : Char)
    (h : c ∈ ['0', '1', '2', '3', '4', '5', '6', '7', '8', '9']) :
    c.isDigit = true ∧ c.toUpper = c ∧ c.isWhitespace = false ∧
    (c != '$') = true ∧ (c != ',') = true ∧
    (c != 'M') = true ∧ (c != 'K') = true := by
  fin_cases h <;> decide

theorem parseSign_of_digit (c : Char) (cs : List Char)
    (hc : c.isDigit = true) : parseSign (c :: cs) = (1, c :: cs) := by
  unfold parseSign
  split
  · rename_i heq
    rw [List.cons.injEq] at heq
    rw [heq.1] at hc
    exact absurd hc (by decide)
  · rename_i heq
    rw [List.cons.injEq] at heq
    rw [heq.1] at hc
    exact absurd hc (by decide)
  · rfl

theorem parseDecimal_digits (ds : List Char) (hne : ds ≠ [])
    (hd : ∀ c ∈ ds, c.isDigit = true) :
    parseDecimal ds = some (digitsVal ds, 0, []) := by
  have ht : ds.takeWhile Char.isDigit = ds := List.takeWhile_eq_self_iff.mpr hd
  have hdr : ds.dropWhile Char.isDigit = [] := List.dropWhile_eq_nil_iff.mpr hd
  have hemp : ds.isEmpty = false := by
    cases ds with
    | nil => exact absurd rfl hne
    | cons a t => rfl
  simp only [parseDecimal, ht, hdr, hemp]
  rfl

theorem pyFloatChars_digits (ds : List Char) (hne : ds ≠ [])
    (hmem : ∀ c ∈ ds, c ∈ ['0', '1', '2', '3', '4', '5', '6', '7', '8', '9']) :
    pyFloatChars ds = some ⟨(digitsVal ds : Int), 0⟩ := by
  have hd : ∀ c ∈ ds, c.isDigit = true :=
    fun c hc => (digit_mem_facts c (hmem c hc)).1
  have hws : ∀ c ∈ ds, c.isWhitespace = false :=
    fun c hc => (digit_mem_facts c (hmem c hc)).2.2.1
  obtain ⟨c, t, rfl⟩ : ∃ c t, ds = c :: t := by
    cases ds with
    | nil => exact absurd rfl hne
    | cons c t => exact ⟨c, t, rfl⟩
  simp only [pyFloatChars, pyStrip_eq_self _ hws,
    parseSign_of_digit c t (hd c (List.mem_cons_self c t)),
    parseDecimal_digits _ hne hd]
  simp

theorem pyIntOfNum_int (n : Int) : pyIntOfNum ⟨n, 0⟩ = n := by
  simp [pyIntOfNum]

theorem asString_beq_empty (ds : List Char) (hne : ds ≠ []) :
    (List.asString ds == "") = false := by
  rw [beq_eq_false_iff_ne]
  intro h
  apply hne
  have hdata := congrArg String.data h
  simpa using hdata

theorem parse_salary_plain_digits (ds : List Char) (hne : ds ≠ [])
    (hmem : ∀ c ∈ ds, c ∈ ['0', '1', '2', '3', '4', '5', '6', '7', '8', '9']) :
    PuckPediaScraper.parse_salary (List.asString ds) = (digitsVal ds : Int) := by
  have hws : ∀ c ∈ ds, c.isWhitespace = false :=
    fun c hc => (digit_mem_facts c (hmem c hc)).2.2.1
  have hdol : removeAll '$' ds = ds :=
    List.filter_eq_self.mpr (fun c hc => (digit_mem_facts c (hmem c hc)).2.2.2.1)
  have hcom : removeAll ',' ds = ds :=
    List.filter_eq_self.mpr
      (fun c hc => (digit_mem_facts c (hmem c hc)).2.2.2.2.1)
  have hup : pyUpper ds = ds :=
    map_eq_self_of_fix _ ds (fun c hc => (digit_mem_facts c (hmem c hc)).2.1)
  have hM : ds.contains 'M' = false :=
    contains_eq_false_of_not_mem ds 'M'
      (fun h => absurd (hmem 'M' h) (by decide))
  have hK : ds.contains 'K' = false :=
    contains_eq_false_of_not_mem ds 'K'
      (fun h => absurd (hmem 'K' h) (by decide))
  simp only [PuckPediaScraper.parse_salary, asString_beq_empty ds hne,
    Bool.false_eq_true, if_false,
    show (List.asString ds).toList = ds from rfl,
    pyStrip_eq_self ds hws, hdol, hcom, pyContainsChar, hup, hM, hK,
    pyFloatChars_digits ds hne hmem, pyIntOfNum_int]

theorem parse_salary_M_digits (ds : List Char) (hne : ds ≠ [])
    (hmem : ∀ c ∈ ds, c ∈ ['0', '1', '2', '3', '4', '5', '6', '7', '8', '9']) :
    PuckPediaScraper.parse_salary (List.asString (ds ++ ['M'])) =
      (digitsVal ds : Int) * 1000000 := by
  have hne2 : ds ++ ['M'] ≠ [] := by simp
  have hws2 : ∀ c ∈ ds ++ ['M'], c.isWhitespace = false := by
    intro c hc
    rcases List.mem_append.mp hc with h | h
    · exact (digit_mem_facts c (hmem c h)).2.2.1
    · simp at h; rw [h]; decide
  have hdol2 : removeAll '$' (ds ++ ['M']) = ds ++ ['M'] := by
    apply List.filter_eq_self.mpr
    intro c hc
    rcases List.mem_append.mp hc with h | h
    · exact (digit_mem_facts c (hmem c h)).2.2.2.1
    · simp at h; rw [h]; decide
  have hcom2 : removeAll ',' (ds ++ ['M']) = ds ++ ['M'] := by
    apply List.filter_eq_self.mpr
    intro c hc
    rcases List.mem_append.mp hc with h | h
    · exact (digit_mem_facts c (hmem c h)).2.2.2.2.1
    · simp at h; rw [h]; decide
  have hup2 : pyUpper (ds ++ ['M']) = ds ++ ['M'] := by
    apply map_eq_self_of_fix
    intro c hc
    rcases List.mem_append.mp hc with h | h
    · exact (digit_mem_facts c (hmem c h)).2.1
    · simp at h; rw [h]; decide
  have hMc : (ds ++ ['M']).contains 'M' = true :=
    List.elem_eq_true_of_mem
      (List.mem_append_right ds (List.mem_cons_self 'M' []))
  have hremM : removeAll 'M' (ds ++ ['M']) = ds := by
    unfold removeAll
    rw [List.filter_append,
      List.filter_eq_self.mpr
        (fun c hc => (digit_mem_facts c (hmem c hc)).2.2.2.2.2.1)]
    simp
  simp only [PuckPediaScraper.parse_salary, asString_beq_empty _ hne2,
    Bool.false_eq_true, if_false,
    show (List.asString (ds ++ ['M'])).toList = ds ++ ['M'] from rfl,
    pyStrip_eq_self _ hws2, hdol2, hcom2, pyContainsChar, hup2, hMc, if_true,
    hremM, pyFloatChars_digits ds hne hmem, pyIntOfNum_int]

theorem parse_salary_K_digits (ds : List Char) (hne : ds ≠ [])
    (hmem : ∀ c ∈ ds, c ∈ ['0', '1', '2', '3', '4', '5', '6', '7', '8', '9']) :
    PuckPediaScraper.parse_salary (List.asString (ds ++ ['K'])) =
      (digitsVal ds : Int) * 1000 := by
  have hne2 : ds ++ ['K'] ≠ [] := by simp
  have hws2 : ∀ c ∈ ds ++ ['K'], c.isWhitespace = false := by
    intro c hc
    rcases List.mem_append.mp hc with h | h
    · exact (digit_mem_facts c (hmem c h)).2.2.1
    · simp at h; rw [h]; decide
  have hdol2 : removeAll '$' (ds ++ ['K']) = ds ++ ['K'] := by
    apply List.filter_eq_self.mpr
    intro c hc
    rcases List.mem_append.mp hc with h | h
    · exact (digit_mem_facts c (hmem c h)).2.2.2.1
    · simp at h; rw [h]; decide
  have hcom2 : removeAll ',' (ds ++ ['K']) = ds ++ ['K'] := by
    apply List.filter_eq_self.mpr
    intro c hc
    rcases List.mem_append.mp hc with h | h
    · exact (digit_mem_facts c (hmem c h)).2.2.2.2.1
    · simp at h; rw [h]; decide
  have hup2 : pyUpper (ds ++ ['K']) = ds ++ ['K'] := by
    apply map_eq_self_of_fix
    intro c hc
    rcases List.mem_append.mp hc with h | h
    · exact (digit_mem_facts c (hmem c h)).2.1
    · simp at h; rw [h]; decide
  have hMc : (ds ++ ['K']).contains 'M' = false := by
    apply contains_eq_false_of_not_mem
    intro h
    rcases List.mem_append.mp h with h | h
    · exact absurd (hmem 'M' h) (by decide)
    · simp at h
  have hKc : (ds ++ ['K']).contains 'K' = true :=
    List.elem_eq_true_of_mem
      (List.mem_append_right ds (List.mem_cons_self 'K' []))
  have hremK : removeAll 'K' (ds ++ ['K']) = ds := by
    unfold removeAll
    rw [List.filter_append,
      List.filter_eq_self.mpr
        (fun c hc => (digit_mem_facts c (hmem c hc)).2.2.2.2.2.2)]
    simp
  simp only [PuckPediaScraper.parse_salary, asString_beq_empty _ hne2,
    Bool.false_eq_true, if_false,
    show (List.asString (ds ++ ['K'])).toList = ds ++ ['K'] from rfl,
    pyStrip_eq_self _ hws2, hdol2, hcom2, pyContainsChar, hup2, hMc, hKc,
    if_true, hremK, pyFloatChars_digits ds hne hmem, pyIntOfNum_int]

theorem removeAll_comma_dollar (x : List Char) :
    removeAll ',' (removeAll '$' x) =
      x.filter (fun c => c != '$' && c != ',') := by
  unfold removeAll
  rw [List.filter_filter]
  apply List.filter_congr
  intro a _
  exact Bool.and_comm _ _

theorem parse_salary_strips_separators (cs : List Char)
    (hws : ∀ c ∈ cs, c.isWhitespace = false) :
    PuckPediaScraper.parse_salary (List.asString cs) =
      PuckPediaScraper.parse_salary
        (List.asString (cs.filter (fun c => c != '$' && c != ','))) := by
  by_cases hcs : cs = []
  · subst hcs; rfl
  · by_cases hcs' : cs.filter (fun c => c != '$' && c != ',') = []
    · rw [hcs']
      simp only [PuckPediaScraper.parse_salary, asString_beq_empty cs hcs,
        Bool.false_eq_true, if_false,
        show (List.asString cs).toList = cs from rfl,
        pyStrip_eq_self cs hws, removeAll_comma_dollar, hcs']
      decide
    · have hwsf : ∀ c ∈ cs.filter (fun c => c != '$' && c != ','),
          c.isWhitespace = false :=
        fun c hc => hws c (List.mem_filter.mp hc).1
      have hidem : (cs.filter (fun c => c != '$' && c != ',')).filter
          (fun c => c != '$' && c != ',') =
          cs.filter (fun c => c != '$' && c != ',') :=
        List.filter_eq_self.mpr (fun a ha => (List.mem_filter.mp ha).2)
      simp only [PuckPediaScraper.parse_salary, asString_beq_empty cs hcs,
        asString_beq_empty _ hcs', Bool.false_eq_true, if_false,
        show (List.asString cs).toList = cs from rfl,
        show (List.asString (cs.filter (fun c => c != '$' && c != ','))).toList
          = cs.filter (fun c => c != '$' && c != ',') from rfl,
        pyStrip_eq_self cs hws, pyStrip_eq_self _ hwsf,
        removeAll_comma_dollar, hidem]

theorem parse_salary_unparseable (s : String)
    (hM : pyFloatChars (removeAll 'M'
      (pyUpper (removeAll ',' (removeAll '$' (pyStrip s.toList))))) = none)
    (hK : pyFloatChars (removeAll 'K'
      (pyUpper (removeAll ',' (removeAll '$' (pyStrip s.toList))))) = none)
    (hP : pyFloatChars (removeAll ','
      (removeAll '$' (pyStrip s.toList))) = none) :
    PuckPediaScraper.parse_salary s = 0 := by
  by_cases hemp : (s == "") = true
  · simp [PuckPediaScraper.parse_salary, hemp]
  · have hemp' : (s == "") = false := by simpa using hemp
    simp only [PuckPediaScraper.parse_salary, hemp', Bool.false_eq_true,
      if_false, hM, hK, hP]
    split
    · rfl
    · split <;> rfl

/-- C4: `_parse_salary` maps the documented examples correctly; it strips `$`
and thousands separators, a trailing `M` on a number multiplies it by
1,000,000, a trailing `K` by 1,000, a plain digit string parses as that
integer, and text whose cleaned form parses in none of the three branches
resolves to 0. -/
theorem parse_salary_spec :
    PuckPediaScraper.parse_salary "$1,500,000" = 1500000 ∧
    PuckPediaScraper.parse_salary "$1.5M" = 1500000 ∧
    PuckPediaScraper.parse_salary "$750K" = 750000 ∧
    PuckPediaScraper.parse_salary "" = 0 ∧
    (∀ cs : List Char, (∀ c ∈ cs, c.isWhitespace = false) →
      PuckPediaScraper.parse_salary (List.asString cs) =
        PuckPediaScraper.parse_salary
          (List.asString (cs.filter (fun c => c != '$' && c != ',')))) ∧
    (∀ ds : List Char, ds ≠ [] →
      (∀ c ∈ ds, c ∈ ['0', '1', '2', '3', '4', '5', '6', '7', '8', '9']) →
      PuckPediaScraper.parse_salary (List.asString ds) = (digitsVal ds : Int) ∧
      PuckPediaScraper.parse_salary (List.asString (ds ++ ['M'])) =
        (digitsVal ds : Int) * 1000000 ∧
      PuckPediaScraper.parse_salary (List.asString (ds ++ ['K'])) =
        (digitsVal ds : Int) * 1000) ∧
    (∀ s : String,
      pyFloatChars (removeAll 'M'
        (pyUpper (removeAll ',' (removeAll '$' (pyStrip s.toList))))) = none →
      pyFloatChars (removeAll 'K'
        (pyUpper (removeAll ',' (removeAll '$' (pyStrip s.toList))))) = none →
      pyFloatChars (removeAll ','
        (removeAll '$' (pyStrip s.toList))) = none →
      PuckPediaScraper.parse_salary s = 0) :=
  ⟨by decide, by decide, by decide, by decide,
   parse_salary_strips_separators,
   fun ds hne hmem =>
     ⟨parse_salary_plain_digits ds hne hmem,
      parse_salary_M_digits ds hne hmem,
      parse_salary_K_digits ds hne hmem⟩,
   parse_salary_unparseable⟩

/-- Witness for C4's quantified parts: separator stripping on "$2,000", the
digit string "750" with and without suffixes, and the unparseable "N/A". -/
theorem parse_salary_spec_witness :
    (PuckPediaScraper.parse_salary (List.asString "$2,000".toList) =
      PuckPediaScraper.parse_salary
        (List.asString ("$2,000".toList.filter (fun c => c != '$' && c != ',')))) ∧
    (PuckPediaScraper.parse_salary (List.asString ['7', '5', '0']) =
        ((digitsVal ['7', '5', '0'] : Nat) : Int) ∧
      PuckPediaScraper.parse_salary (List.asString (['7', '5', '0'] ++ ['M'])) =
        ((digitsVal ['7', '5', '0'] : Nat) : Int) * 1000000 ∧
      PuckPediaScraper.parse_salary (List.asString (['7', '5', '0'] ++ ['K'])) =
        ((digitsVal ['7', '5', '0'] : Nat) : Int) * 1000) ∧
    PuckPediaScraper.parse_salary "N/A" = 0 :=
  ⟨parse_salary_spec.2.2.2.2.1 "$2,000".toList (by decide),
   parse_salary_spec.2.2.2.2.2.1 ['7', '5', '0'] (by decide) (by decide),
   parse_salary_spec.2.2.2.2.2.2 "N/A" (by decide) (by decide) (by decide)⟩

/-- Witness for C9's behavioral part: the row written by a concrete
`upsert_teams` call carries the call's timestamp. -/
theorem provenance_and_updated_at_witness :
    (⟨"TOR", none, none, none, ⟨some "TOR", none, none, none⟩, 5⟩ :
        Database.TeamRecord) ∈ ([] : List Database.TeamRecord) ∨
      (⟨"TOR", none, none, none, ⟨some "TOR", none, none, none⟩, 5⟩ :
        Database.TeamRecord).updated_at = 5 :=
  provenance_and_updated_at.2.2.2.1 5 [⟨some "TOR", none, none, none⟩] []
    ⟨"TOR", none, none, none, ⟨some "TOR", none, none, none⟩, 5⟩ (by decide)
